import Mathlib

/-!
Image viewer replay driver (`renderdoc/core/image_viewer.cpp`).

A shallow embedding of `ImageViewer::RefreshFile`, the `ImageViewer` constructor and
`IMG_CreateReplayDevice`.

Conventions of the embedding:

* `uint32_t` values are natural numbers below `2^32`; every 32-bit multiplication and
  addition of the source is written with an explicit `% 2^32`.  `size_t` and `uint64_t`
  are 64 bits wide.
* `int` values returned by the decode libraries are `Int`; storing one through an
  `(int *)&texDetails.width` cast is `toU32`.
* A `float` is represented by its IEEE-754 bit pattern (`0.0f` is `0`, `1.0f` is
  `0x3F800000`); the code only copies floats, it never computes with them.
* `ResourceId()` (the null id) is `0`.
* The decode libraries (tinyexr, stb_image, the DDS reader), the file system and the proxy
  driver are external: what they return is an input of the model, what is asked of them is
  recorded in a trace of `Event`s.
* Undefined behaviour (a read or write outside an allocation) is `none`.
-/

namespace Renderdoc

/-! ## Machine integers -/

def U32 : Nat := 4294967296

def U64 : Nat := 18446744073709551616

/-- Conversion of an `int` to `uint32_t` (what a write through `(int *)&u` leaves in `u`). -/
def toU32 (x : Int) : Nat := (x % 4294967296).toNat

/-- The value `~0U`. -/
def allOnes : Nat := 4294967295

/-! ## Replay data types (the fields this file reads or writes) -/

abbrev ResourceId := Nat

/-- The default-constructed `ResourceId()`. -/
def nullId : ResourceId := 0

inductive CompType where
  | Typeless
  | Float
  | UNorm
  | UNormSRGB
  deriving DecidableEq, Repr

inductive ResourceFormatType where
  | Regular
  | Undefined
  | BC1
  | BC3
  deriving DecidableEq, Repr

structure ResourceFormat where
  type : ResourceFormatType
  compType : CompType
  compCount : Nat
  compByteWidth : Nat
  deriving DecidableEq, Repr

inductive TextureType where
  | Unknown
  | Texture1D
  | Texture1DArray
  | Texture2D
  | Texture2DArray
  | Texture3D
  | TextureCube
  | TextureCubeArray
  deriving DecidableEq, Repr

/-- Bits of `TextureCategory`. -/
inductive TextureCategory where
  | NoFlags
  | SwapBufferColorTarget
  deriving DecidableEq, Repr

structure TextureDescription where
  format : ResourceFormat
  dimension : Nat
  type : TextureType
  width : Nat
  height : Nat
  depth : Nat
  resourceId : ResourceId
  cubemap : Bool
  mips : Nat
  arraysize : Nat
  creationFlags : TextureCategory
  msQual : Nat
  msSamp : Nat
  byteSize : Nat
  deriving DecidableEq, Repr

structure FrameDescription where
  frameNumber : Nat
  fileOffset : Nat
  uncompressedFileSize : Nat
  compressedFileSize : Nat
  persistentSize : Nat
  initDataSize : Nat
  deriving DecidableEq, Repr

structure DrawcallDescription where
  eventId : Nat
  drawcallId : Nat
  name : String
  deriving DecidableEq, Repr

structure FrameRecord where
  frameInfo : FrameDescription
  drawcallList : List DrawcallDescription
  deriving DecidableEq, Repr

structure ResourceDescription where
  resourceId : ResourceId
  autogeneratedName : Bool
  name : String
  deriving DecidableEq, Repr

inductive GraphicsAPI where
  | D3D11
  | D3D12
  | OpenGL
  | Vulkan
  deriving DecidableEq, Repr

structure APIProperties where
  pipelineType : GraphicsAPI
  localRenderer : GraphicsAPI
  degraded : Bool
  deriving DecidableEq, Repr

/-- The part of `D3D11Pipe::State` the viewer fills: `outputMerger.renderTargets`, each
entry reduced to its `resourceResourceId`. -/
structure PipelineState where
  renderTargets : List ResourceId
  deriving DecidableEq, Repr

inductive ReplayStatus where
  | Succeeded
  | UnknownError
  | InternalError
  | FileIOFailed
  | ImageUnsupported
  | APIUnsupported
  | APIInitFailed
  deriving DecidableEq, Repr

/-! ## What the decode libraries hand back -/

structure EXRVersion where
  tiled : Bool
  non_image : Bool
  multipart : Bool
  deriving DecidableEq, Repr

/-- One `EXRChannelInfo`: its `name` as a C character array without the terminator. -/
structure EXRChannelInfo where
  name : List Char
  deriving DecidableEq, Repr

structure EXRHeader where
  num_channels : Nat
  channels : List EXRChannelInfo
  deriving DecidableEq, Repr

/-- An `EXRImage` after a load with every channel requested as float: `images[ch]` is the
array of samples (bit patterns) of channel `ch`. -/
structure EXRImage where
  width : Int
  height : Int
  num_channels : Int
  images : List (List Nat)
  deriving DecidableEq, Repr

/-- Result of `stbi_info_from_file`: the return value and what it left in `*x`, `*y`. -/
structure StbiInfo where
  ret : Int
  x : Int
  y : Int
  deriving DecidableEq, Repr

/-- A non-NULL result of `stbi_load_from_file` / `stbi_loadf_from_file`: the samples and
what the call left in `*x`, `*y`. -/
structure StbiImage where
  x : Int
  y : Int
  data : List Nat
  deriving DecidableEq, Repr

/-- A `dds_data` whose `subdata` is not NULL. -/
structure dds_data where
  width : Nat
  height : Nat
  depth : Nat
  mips : Nat
  slices : Nat
  cubemap : Bool
  format : ResourceFormat
  subdata : List (List Nat)
  subsizes : List Nat
  deriving DecidableEq, Repr

/-- The file as the probes and loaders see it.  The constructor is the branch the
detection chain `is_exr_file` / `stbi_is_hdr_from_file` / `is_dds_file` / else takes, its
arguments are the results of the library calls made in that branch (`none` is a NULL
result). -/
inductive ImageFile where
  | exr (versionRet : Int) (version : EXRVersion) (headerRet : Int) (header : EXRHeader)
      (loadRet : Int) (image : EXRImage)
  | hdr (load : Option StbiImage)
  | dds (load : Option dds_data)
  | other (info : StbiInfo) (load : Option StbiImage)
  deriving DecidableEq, Repr

/-! ## Trace of external calls -/

inductive Event where
  | fopen (ok : Bool)
  | sleep (ms : Nat)
  | fclose
  | parseEXRVersion
  | parseEXRHeader
  | loadEXRImage
  | stbiLoadf
  | stbiInfo
  | stbiLoad
  | loadDDS
  | createProxyTexture (templateTex : TextureDescription)
  | setProxyTextureData (texid : ResourceId) (arrayIdx : Nat) (mip : Nat) (data : List Nat)
      (dataSize : Nat)
  | createProxyReplayDriver
  | proxyShutdown
  | newImageViewer
  | deleteImageViewer
  deriving DecidableEq, Repr

/-! ## The adapter -/

structure ImageViewer where
  m_Props : APIProperties
  m_FrameRecord : FrameRecord
  m_PipelineState : PipelineState
  m_Filename : String
  m_TextureID : ResourceId
  m_CustomTexID : ResourceId
  m_Resources : List ResourceDescription
  m_TexDetails : TextureDescription
  deriving DecidableEq, Repr

/-! ## `ImageViewer::RefreshFile` -/

/-- What one call of `RefreshFile` meets outside the adapter: `opens k` is whether the
`k`-th `fopen` (counted from 0) succeeds, `file` is what the probes and loaders report,
`createRet` is what the proxy's `CreateProxyTexture` returns if it is asked. -/
structure ReloadEnv where
  opens : Nat → Bool
  file : ImageFile
  createRet : ResourceId

/-- The loop `for(attempt = 0; attempt < 10 && f == NULL; attempt++)`, with `left`
iterations still allowed and `attempt` the current index.  Returns whether `f` is
non-NULL afterwards, and the calls made. -/
def openLoop (opens : Nat → Bool) : (left : Nat) → (attempt : Nat) → Bool × List Event
  | 0, _ => (false, [])
  | left + 1, attempt =>
    if opens attempt then (true, [Event.fopen true])
    else
      let r := openLoop opens left (attempt + 1)
      (r.1, Event.fopen false :: Event.sleep 40 :: r.2)

def rgba8_unorm : ResourceFormat :=
  { type := ResourceFormatType.Regular, compType := CompType.UNormSRGB, compCount := 4,
    compByteWidth := 1 }

def rgba32_float : ResourceFormat :=
  { rgba8_unorm with compByteWidth := 4, compType := CompType.Float }

/-- The local `texDetails` after the "reasonable defaults" block. -/
def initialTexDetails (m_TextureID : ResourceId) : TextureDescription :=
  { creationFlags := TextureCategory.SwapBufferColorTarget
    cubemap := false
    resourceId := m_TextureID
    byteSize := 0
    msQual := 0
    msSamp := 1
    format := rgba8_unorm
    type := TextureType.Texture2D
    dimension := 2
    arraysize := 1
    width := 1
    height := 1
    depth := 1
    mips := 1 }

/-- The expression `texDetails.width * texDetails.height * 4 * sizeof(T)`: the first two
products are `uint32_t`, the product with `sizeof` is `size_t`. -/
def computeDatasize (width height sizeofT : Nat) : Nat :=
  ((width * height % U32) * 4 % U32) * sizeofT % U64

/-- The local `int channels[4]`. -/
structure Channels where
  r : Int
  g : Int
  b : Int
  a : Int
  deriving DecidableEq, Repr

def Channels.get (ch : Channels) (c : Nat) : Int :=
  match c with
  | 0 => ch.r
  | 1 => ch.g
  | 2 => ch.b
  | _ => ch.a

/-- The `switch(exrHeader.channels[i].name[0])`.  An empty name starts with the
terminator and matches no case. -/
def assignChannel (ch : Channels) (name : List Char) (i : Nat) : Channels :=
  match name.head? with
  | some 'R' => { ch with r := i }
  | some 'G' => { ch with g := i }
  | some 'B' => { ch with b := i }
  | some 'A' => { ch with a := i }
  | _ => ch

/-- The loop over `i < exrImage.num_channels` filling `channels`, after `n` iterations. -/
def scanChannels (hdr : EXRHeader) : (n : Nat) → Option Channels
  | 0 => some { r := -1, g := -1, b := -1, a := -1 }
  | n + 1 =>
    match scanChannels hdr n, hdr.channels[n]? with
    | some ch, some info => some (assignChannel ch info.name n)
    | _, _ => none

/-- The bit pattern of `1.0f`. -/
def oneF : Nat := 1065353216

/-- The right-hand side of the assignment to `rgba[i * 4 + c]`. -/
def pixelValue (src : List (List Nat)) (ch : Channels) (i c : Nat) : Option Nat :=
  if 0 ≤ ch.get c then
    match src[(ch.get c).toNat]? with
    | some samples => samples[i]?
    | none => none
  else if c < 3 then some 0
  else some oneF

/-- A store into an allocation of `buf.length` floats. -/
def writeAt (buf : List Nat) (idx v : Nat) : Option (List Nat) :=
  if idx < buf.length then some (buf.set idx v) else none

/-- The inner loop `for(int c = 0; c < 4; c++)` from component `c` on, `left` to go. -/
def fillComponents (src : List (List Nat)) (ch : Channels) (i : Nat) :
    (left : Nat) → (c : Nat) → List Nat → Option (List Nat)
  | 0, _, buf => some buf
  | left + 1, c, buf =>
    match pixelValue src ch i c with
    | none => none
    | some v =>
      match writeAt buf ((i * 4 % U32 + c) % U32) v with
      | none => none
      | some buf1 => fillComponents src ch i left (c + 1) buf1

/-- The outer loop `for(uint32_t i = 0; i < width * height; i++)` from pixel `i` on. -/
def fillPixels (src : List (List Nat)) (ch : Channels) :
    (left : Nat) → (i : Nat) → List Nat → Option (List Nat)
  | 0, _, buf => some buf
  | left + 1, i, buf =>
    match fillComponents src ch i 4 0 buf with
    | none => none
    | some buf1 => fillPixels src ch left (i + 1) buf1

/-- The EXR conversion to interleaved RGBA: `malloc(datasize)` (a fresh allocation of
`datasize / sizeof(float)` floats, shown zero-filled), the channel scan and the pixel
loop.  The result is the content of `data`. -/
def exrToRGBA (hdr : EXRHeader) (img : EXRImage) : Option (List Nat) :=
  let width := toU32 img.width
  let height := toU32 img.height
  let datasize := computeDatasize width height 4
  match scanChannels hdr img.num_channels.toNat with
  | none => none
  | some ch =>
    fillPixels img.images ch (width * height % U32) 0 (List.replicate (datasize / 4) 0)

/-- Where the format branches of `RefreshFile` leave the function: either it has returned
(`abort`), or it goes on past the `!dds && data == NULL` test with these locals. -/
inductive Decode where
  | abort (events : List Event)
  | loaded (texDetails : TextureDescription) (dds : Bool) (data : List Nat) (datasize : Nat)
      (events : List Event)
  deriving DecidableEq, Repr

/-- The chain `if(is_exr_file(f)) ... else if(stbi_is_hdr_from_file(f)) ... else
if(is_dds_file(f)) ... else ...` and the test `!dds && data == NULL` after it. -/
def decodeFile (m_TextureID : ResourceId) : ImageFile → Option Decode
  | ImageFile.exr versionRet version headerRet header loadRet image =>
    if versionRet ≠ 0 then some (Decode.abort [Event.parseEXRVersion, Event.fclose])
    else if version.multipart || version.non_image || version.tiled then
      some (Decode.abort [Event.parseEXRVersion, Event.fclose])
    else if headerRet ≠ 0 then
      some (Decode.abort [Event.parseEXRVersion, Event.parseEXRHeader, Event.fclose])
    else if loadRet ≠ 0 then
      some (Decode.abort
        [Event.parseEXRVersion, Event.parseEXRHeader, Event.loadEXRImage, Event.fclose])
    else
      let texDetails :=
        { initialTexDetails m_TextureID with
          format := rgba32_float, width := toU32 image.width, height := toU32 image.height }
      match exrToRGBA header image with
      | none => none
      | some data =>
        some (Decode.loaded texDetails false data
          (computeDatasize texDetails.width texDetails.height 4)
          [Event.parseEXRVersion, Event.parseEXRHeader, Event.loadEXRImage])
  | ImageFile.hdr load =>
    match load with
    | none => some (Decode.abort [Event.stbiLoadf, Event.fclose])
    | some img =>
      let texDetails :=
        { initialTexDetails m_TextureID with
          format := rgba32_float, width := toU32 img.x, height := toU32 img.y }
      some (Decode.loaded texDetails false img.data
        (computeDatasize texDetails.width texDetails.height 4) [Event.stbiLoadf])
  | ImageFile.dds _ => some (Decode.loaded (initialTexDetails m_TextureID) true [] 0 [])
  | ImageFile.other info load =>
    if info.ret = 0 || toU32 info.x = 0 || toU32 info.x = allOnes || toU32 info.y = 0 ||
        toU32 info.y = allOnes then
      some (Decode.abort [Event.stbiInfo, Event.fclose])
    else
      match load with
      | none => some (Decode.abort [Event.stbiInfo, Event.stbiLoad, Event.fclose])
      | some img =>
        let texDetails :=
          { initialTexDetails m_TextureID with
            format := rgba8_unorm, width := toU32 img.x, height := toU32 img.y }
        some (Decode.loaded texDetails false img.data
          (computeDatasize texDetails.width texDetails.height 1)
          [Event.stbiInfo, Event.stbiLoad])

/-- The assignments from `read_data` and the `type` / `dimension` cascade. -/
def ddsTexDetails (t : TextureDescription) (rd : dds_data) : TextureDescription :=
  let t1 :=
    { t with
      cubemap := rd.cubemap, arraysize := rd.slices, width := rd.width, height := rd.height,
      depth := rd.depth, mips := rd.mips, format := rd.format }
  if t1.depth > 1 then { t1 with type := TextureType.Texture3D, dimension := 3 }
  else if t1.cubemap then
    { t1 with
      type := if t1.arraysize > 1 then TextureType.TextureCubeArray else TextureType.TextureCube
      dimension := 2 }
  else if t1.width > 1 then
    { t1 with
      type := if t1.arraysize > 1 then TextureType.Texture2DArray else TextureType.Texture2D
      dimension := 2 }
  else
    { t1 with
      type := if t1.arraysize > 1 then TextureType.Texture1DArray else TextureType.Texture1D
      dimension := 1 }

/-- The loop `uncompressedFileSize += read_data.subsizes[i]` after `n` iterations. -/
def sumSubsizes (subsizes : List Nat) : (n : Nat) → Option Nat
  | 0 => some 0
  | n + 1 =>
    match sumSubsizes subsizes n, subsizes[n]? with
    | some acc, some sz => some ((acc + sz) % U64)
    | _, _ => none

/-- The per-sub-buffer upload loop from index `i` on, `left` iterations to go. -/
def ddsUploads (texid : ResourceId) (mips : Nat) (rd : dds_data) :
    (left : Nat) → (i : Nat) → Option (List Event)
  | 0, _ => some []
  | left + 1, i =>
    match rd.subdata[i]?, rd.subsizes[i]?, ddsUploads texid mips rd left (i + 1) with
    | some d, some sz, some rest =>
      some (Event.setProxyTextureData texid (i / mips) (i % mips) d sz :: rest)
    | _, _, _ => none

/-- The condition under which `RefreshFile` resets `m_TextureID`. -/
def shapeDiffers (m_TexDetails texDetails : TextureDescription) : Bool :=
  m_TexDetails.width != texDetails.width || m_TexDetails.height != texDetails.height ||
    m_TexDetails.depth != texDetails.depth || m_TexDetails.cubemap != texDetails.cubemap ||
    m_TexDetails.mips != texDetails.mips || m_TexDetails.arraysize != texDetails.arraysize ||
    m_TexDetails.width != texDetails.width || m_TexDetails.format != texDetails.format

/-- From "recreate proxy texture if necessary" to the end of `RefreshFile`; `uploads`
yields the `SetProxyTextureData` calls for the final texture id. -/
def createAndUpload (self : ImageViewer) (createRet : ResourceId)
    (texDetails : TextureDescription) (uploads : ResourceId → Option (List Event))
    (before : List Event) : Option (ImageViewer × List Event) :=
  let id1 :=
    if self.m_TextureID ≠ nullId ∧ shapeDiffers self.m_TexDetails texDetails = true then nullId
    else self.m_TextureID
  let created := if id1 = nullId then [Event.createProxyTexture texDetails] else []
  let id2 := if id1 = nullId then createRet else id1
  match uploads id2 with
  | none => none
  | some ups =>
    some ({ self with m_TextureID := id2 }, before ++ created ++ ups ++ [Event.fclose])

/-- The three assignments `initDataSize = 0`, `persistentSize = 0`,
`uncompressedFileSize = datasize`. -/
def setDataSizes (self : ImageViewer) (datasize : Nat) : ImageViewer :=
  { self with
    m_FrameRecord :=
      { self.m_FrameRecord with
        frameInfo :=
          { self.m_FrameRecord.frameInfo with
            initDataSize := 0, persistentSize := 0, uncompressedFileSize := datasize % U64 } } }

/-- The result of `uncompressedFileSize = 0` and the summing loop of the DDS branch. -/
def setUncompressed (self : ImageViewer) (total : Nat) : ImageViewer :=
  { self with
    m_FrameRecord :=
      { self.m_FrameRecord with
        frameInfo := { self.m_FrameRecord.frameInfo with uncompressedFileSize := total } } }

/-- The assignment `compressedFileSize = uncompressedFileSize`. -/
def copyCompressed (self : ImageViewer) : ImageViewer :=
  { self with
    m_FrameRecord :=
      { self.m_FrameRecord with
        frameInfo :=
          { self.m_FrameRecord.frameInfo with
            compressedFileSize := self.m_FrameRecord.frameInfo.uncompressedFileSize } } }

/-- Everything in `RefreshFile` after the file has been opened. -/
def refreshOpened (self : ImageViewer) (env : ReloadEnv) : Option (ImageViewer × List Event) :=
  match decodeFile self.m_TextureID env.file with
  | none => none
  | some (Decode.abort events) => some (self, events)
  | some (Decode.loaded texDetails dds data datasize events) =>
    let self1 := setDataSizes self datasize
    if dds then
      match env.file with
      | ImageFile.dds (some rd) =>
        let tex := ddsTexDetails texDetails rd
        let n := tex.arraysize * tex.mips % U32
        match sumSubsizes rd.subsizes n with
        | none => none
        | some total =>
          createAndUpload (copyCompressed (setUncompressed self1 total)) env.createRet tex
            (fun texid => ddsUploads texid tex.mips rd n 0) (events ++ [Event.loadDDS])
      | _ => some (self1, events ++ [Event.loadDDS, Event.fclose])
    else
      createAndUpload (copyCompressed self1) env.createRet texDetails
        (fun texid => some [Event.setProxyTextureData texid 0 0 data datasize]) events

/-- The method `ImageViewer::RefreshFile`: the adapter afterwards and the external calls
made, or `none` when the call runs into undefined behaviour. -/
def RefreshFile (self : ImageViewer) (env : ReloadEnv) : Option (ImageViewer × List Event) :=
  let opened := openLoop env.opens 10 0
  if opened.1 then
    match refreshOpened self env with
    | none => none
    | some (self1, events) => some (self1, opened.2 ++ events)
  else some (self, opened.2)

/-- The method `ImageViewer::FileChanged`. -/
def FileChanged (self : ImageViewer) (env : ReloadEnv) : Option (ImageViewer × List Event) :=
  RefreshFile self env

/-- The method `ImageViewer::GetResources`. -/
def GetResources (self : ImageViewer) : List ResourceDescription := self.m_Resources

/-- The method `ImageViewer::GetTextures`. -/
def GetTextures (self : ImageViewer) : List ResourceId := [self.m_TextureID]

/-- A sequence of `FileChanged` notifications, one environment for each. -/
def fileChangedAll : ImageViewer → List ReloadEnv → Option ImageViewer
  | self, [] => some self
  | self, env :: rest =>
    match FileChanged self env with
    | none => none
    | some (self1, _) => fileChangedAll self1 rest

/-! ## Construction -/

/-- The proxy `IReplayDriver`, as far as the constructor reads it: `GetAPIProperties()`. -/
structure Proxy where
  props : APIProperties
  deriving DecidableEq, Repr

/-- Values the constructor takes from declarations outside this file: the
default-constructed `TextureDescription` and `FrameDescription`, and the function
`get_basename` of `strings/string_utils.h`. -/
structure Externals where
  texDetails : TextureDescription
  frameInfo : FrameDescription
  get_basename : String → String

/-- The constructor `ImageViewer::ImageViewer(proxy, filename)`. -/
def newImageViewer (ext : Externals) (proxy : Proxy) (filename : String) (env : ReloadEnv) :
    Option (ImageViewer × List Event) :=
  let self0 : ImageViewer :=
    { m_Props := { proxy.props with pipelineType := GraphicsAPI.D3D11, degraded := false }
      m_FrameRecord :=
        { frameInfo := { ext.frameInfo with fileOffset := 0, frameNumber := 1 }
          drawcallList := [{ drawcallId := 1, eventId := 1, name := filename }] }
      m_PipelineState := { renderTargets := [] }
      m_Filename := filename
      m_TextureID := nullId
      m_CustomTexID := nullId
      m_Resources := []
      m_TexDetails := ext.texDetails }
  match RefreshFile self0 env with
  | none => none
  | some (self1, events) =>
    some ({ self1 with
            m_Resources :=
              self1.m_Resources ++
                [{ resourceId := self1.m_TextureID, autogeneratedName := false,
                   name := ext.get_basename self1.m_Filename }]
            m_PipelineState := { renderTargets := [self1.m_TextureID] } },
          events)

/-- The `RDCFile` as `IMG_CreateReplayDevice` uses it: what `StealImageFileHandle` stores
in `filename` and returns (`none` is a NULL `FILE *`). -/
structure RDCFile where
  filename : String
  imageFile : Option ImageFile

/-- What `IMG_CreateReplayDevice` meets after its own checks: the status and proxy that
`CreateProxyReplayDriver` hands back (`none` is a NULL proxy) and the environment of the
`RefreshFile` call made by the constructor. -/
structure CreateEnv where
  proxyStatus : ReplayStatus
  proxy : Option Proxy
  reload : ReloadEnv

/-- Result of `IMG_CreateReplayDevice`: the returned status, what was stored in `*driver`
(`none` when nothing was stored) and the external calls made. -/
structure CreateResult where
  status : ReplayStatus
  driver : Option ImageViewer
  events : List Event
  deriving DecidableEq, Repr

/-- The checks "make sure the file is a type we recognise before going further": whether
the function goes on, and the calls made (the closing `fclose` included). -/
def recogniseFile : ImageFile → Bool × List Event
  | ImageFile.exr versionRet version headerRet _ _ _ =>
    if versionRet ≠ 0 then (false, [Event.parseEXRVersion, Event.fclose])
    else if version.multipart || version.non_image || version.tiled then
      (false, [Event.parseEXRVersion, Event.fclose])
    else if headerRet ≠ 0 then
      (false, [Event.parseEXRVersion, Event.parseEXRHeader, Event.fclose])
    else (true, [Event.parseEXRVersion, Event.parseEXRHeader, Event.fclose])
  | ImageFile.hdr load =>
    match load with
    | none => (false, [Event.stbiLoadf, Event.fclose])
    | some _ => (true, [Event.stbiLoadf, Event.fclose])
  | ImageFile.dds load =>
    match load with
    | none => (false, [Event.loadDDS, Event.fclose])
    | some _ => (true, [Event.loadDDS, Event.fclose])
  | ImageFile.other info load =>
    if info.ret = 0 || info.x ≤ 0 || info.x ≥ 65536 || info.y ≤ 0 || info.y ≥ 65536 then
      (false, [Event.stbiInfo, Event.fclose])
    else
      match load with
      | none => (false, [Event.stbiInfo, Event.stbiLoad, Event.fclose])
      | some _ => (true, [Event.stbiInfo, Event.stbiLoad, Event.fclose])

/-- The function `IMG_CreateReplayDevice(rdc, driver)`; `rdc = none` is a NULL `rdc`. -/
def IMG_CreateReplayDevice (ext : Externals) (rdc : Option RDCFile) (env : CreateEnv) :
    Option CreateResult :=
  match rdc with
  | none => some { status := ReplayStatus.InternalError, driver := none, events := [] }
  | some rdcFile =>
    match rdcFile.imageFile with
    | none => some { status := ReplayStatus.FileIOFailed, driver := none, events := [] }
    | some f =>
      let probe := recogniseFile f
      if !probe.1 then
        some { status := ReplayStatus.ImageUnsupported, driver := none, events := probe.2 }
      else
        match env.proxy with
        | none =>
          some { status := env.proxyStatus, driver := none,
                 events := probe.2 ++ [Event.createProxyReplayDriver] }
        | some proxy =>
          if env.proxyStatus ≠ ReplayStatus.Succeeded then
            some { status := env.proxyStatus, driver := none,
                   events := probe.2 ++ [Event.createProxyReplayDriver, Event.proxyShutdown] }
          else
            match newImageViewer ext proxy rdcFile.filename env.reload with
            | none => none
            | some (viewer, events) =>
              let made := probe.2 ++ [Event.createProxyReplayDriver, Event.newImageViewer] ++ events
              match viewer.m_Resources with
              | [] => none
              | res :: _ =>
                if res.resourceId = nullId then
                  some { status := ReplayStatus.ImageUnsupported, driver := some viewer,
                         events := made ++ [Event.deleteImageViewer, Event.proxyShutdown] }
                else some { status := ReplayStatus.Succeeded, driver := some viewer, events := made }

/-! ## Derived notions used in the statements -/

/-- Calls made on the proxy driver's texture interface. -/
def isProxyCall : Event → Bool
  | Event.createProxyTexture _ => true
  | Event.setProxyTextureData _ _ _ _ _ => true
  | _ => false

/-- A generic-bitmap file: the probe reports `w` by `h`, the full load returns `data`. -/
def bitmapFile (w h : Int) (data : List Nat) : ImageFile :=
  ImageFile.other { ret := 1, x := w, y := h } (some { x := w, y := h, data := data })

/-- An environment in which the first `fopen` succeeds. -/
def openEnv (file : ImageFile) (createRet : ResourceId) : ReloadEnv :=
  { opens := fun _ => true, file := file, createRet := createRet }

/-- The descriptor `RefreshFile` hands to the proxy for a `w` by `h` bitmap. -/
def bitmapTexDetails (m_TextureID : ResourceId) (w h : Nat) : TextureDescription :=
  { initialTexDetails m_TextureID with format := rgba8_unorm, width := w, height := h }

/-- The descriptor with which `RefreshFile` reaches "recreate proxy texture if necessary",
for a file whose decode gets that far. -/
def decodedDescriptor (m_TextureID : ResourceId) (file : ImageFile) : Option TextureDescription :=
  match decodeFile m_TextureID file with
  | some (Decode.loaded texDetails false _ _ _) => some texDetails
  | some (Decode.loaded texDetails true _ _ _) =>
    match file with
    | ImageFile.dds (some rd) => some (ddsTexDetails texDetails rd)
    | _ => none
  | _ => none

/-- For a DDS file: `subdata` and `subsizes` have an entry for each of the
`slices * mips` indices the loops visit. -/
def ddsArraysOk : ImageFile → Bool
  | ImageFile.dds (some rd) =>
    decide (rd.slices * rd.mips % U32 ≤ rd.subdata.length ∧
      rd.slices * rd.mips % U32 ≤ rd.subsizes.length)
  | _ => true

/-- One `SetProxyTextureData` call on texture `texid`. -/
def isUploadTo (texid : ResourceId) : Event → Bool
  | Event.setProxyTextureData t _ _ _ _ => t == texid
  | _ => false

/-- The library calls made by the format branches. -/
def Decode.events : Decode → List Event
  | Decode.abort events => events
  | Decode.loaded _ _ _ _ events => events

/-- The calls of `n` failed passes through the open loop: `fopen` fails, `Sleep(40)`. -/
def failedAttempts : Nat → List Event
  | 0 => []
  | n + 1 => Event.fopen false :: Event.sleep 40 :: failedAttempts n

def isFopen : Event → Bool
  | Event.fopen _ => true
  | _ => false

def isSleep40 : Event → Bool
  | Event.sleep ms => ms == 40
  | _ => false

/-- The calls the open loop can make. -/
def isOpenLoopCall : Event → Bool
  | Event.fopen _ => true
  | Event.sleep _ => true
  | _ => false

/-- The four stores of one pass of the pixel loop, for pixel `i`. -/
def storePixel (buf : List Nat) (i : Nat) (v : Nat → Nat) : List Nat :=
  (((buf.set (4 * i) (v 0)).set (4 * i + 1) (v 1)).set (4 * i + 2) (v 2)).set (4 * i + 3) (v 3)

/-- The letter that selects component `c` of the output. -/
def channelLetter (c : Nat) : Char :=
  match c with
  | 0 => 'R'
  | 1 => 'G'
  | 2 => 'B'
  | _ => 'A'

/-- The first character of the name of channel `j` of the header, if there is one. -/
def firstChar (hdr : EXRHeader) (j : Nat) : Option Char :=
  match hdr.channels[j]? with
  | some info => info.name.head?
  | none => none

/-- The value the code gives a component that no channel maps to. -/
def defaultComponent (c : Nat) : Nat := if c < 3 then 0 else oneF

/-- The dimensionality rule in the words of the specification: depth > 1 gives 3, else a
cubemap gives 2, else width > 1 gives 2, else 1. -/
def dimensionRule (t : TextureDescription) : Nat :=
  if t.depth > 1 then 3 else if t.cubemap then 2 else if t.width > 1 then 2 else 1

/-- Whether the detection chain takes the `is_dds_file` branch. -/
def ImageFile.isDds : ImageFile → Bool
  | ImageFile.dds _ => true
  | _ => false

/-- Calls of `SetProxyTextureData`. -/
def isUpload : Event → Bool
  | Event.setProxyTextureData _ _ _ _ _ => true
  | _ => false

/-- Calls of `SetProxyTextureData` for array slice `slice` and mip level `mip`. -/
def isUploadAt (slice mip : Nat) : Event → Bool
  | Event.setProxyTextureData _ a m _ _ => a == slice && m == mip
  | _ => false

/-- The upload the claim expects for sub-buffer `i` of a DDS file: sub-buffer `i` with
its own size, to slice `i / mips`, mip `i % mips`. -/
def ddsUploadEvent (texid : ResourceId) (rd : dds_data) (i : Nat) : Event :=
  Event.setProxyTextureData texid (i / rd.mips) (i % rd.mips) (rd.subdata.getD i [])
    (rd.subsizes.getD i 0)

/-- An adapter that holds handle 7 for a 1 by 1 bitmap and has that shape in
`m_TexDetails`. -/
def sampleViewer : ImageViewer :=
  { m_Props := { pipelineType := GraphicsAPI.D3D11, localRenderer := GraphicsAPI.OpenGL,
                 degraded := false }
    m_FrameRecord :=
      { frameInfo := { frameNumber := 1, fileOffset := 0, uncompressedFileSize := 4,
                       compressedFileSize := 4, persistentSize := 0, initDataSize := 0 }
        drawcallList := [{ eventId := 1, drawcallId := 1, name := "image.png" }] }
    m_PipelineState := { renderTargets := [7] }
    m_Filename := "image.png"
    m_TextureID := 7
    m_CustomTexID := 0
    m_Resources := [{ resourceId := 7, autogeneratedName := false, name := "image.png" }]
    m_TexDetails := bitmapTexDetails 0 1 1 }

/-- A 1 by 2 bitmap, readable at the first attempt; the proxy would return handle 9. -/
def tallBitmapEnv : ReloadEnv :=
  openEnv (bitmapFile 1 2 [10, 20, 30, 255, 40, 50, 60, 255]) 9

/-- A file that is locked for the first two `fopen` attempts and is then a 1 by 1 bitmap. -/
def lockedTwiceEnv : ReloadEnv :=
  { opens := fun k => decide (2 ≤ k), file := bitmapFile 1 1 [1, 2, 3, 255], createRet := 9 }

/-- A `TextureDescription` with every field zero or empty. -/
def zeroTexDetails : TextureDescription :=
  { format := { type := ResourceFormatType.Undefined, compType := CompType.Typeless,
                compCount := 0, compByteWidth := 0 }
    dimension := 0, type := TextureType.Unknown, width := 0, height := 0, depth := 0,
    resourceId := 0, cubemap := false, mips := 0, arraysize := 0,
    creationFlags := TextureCategory.NoFlags, msQual := 0, msSamp := 0, byteSize := 0 }

def sampleExternals : Externals :=
  { texDetails := zeroTexDetails
    frameInfo := { frameNumber := 0, fileOffset := 0, uncompressedFileSize := 0,
                   compressedFileSize := 0, persistentSize := 0, initDataSize := 0 }
    get_basename := fun path => path }

def sampleProxy : Proxy :=
  { props := { pipelineType := GraphicsAPI.OpenGL, localRenderer := GraphicsAPI.OpenGL,
               degraded := true } }

/-- A readable 1 by 1 bitmap handed over by the `RDCFile`. -/
def sampleRDCFile : RDCFile :=
  { filename := "image.png", imageFile := some (bitmapFile 1 1 [1, 2, 3, 255]) }

/-- Proxy creation succeeds, but the proxy returns `ResourceId()` from
`CreateProxyTexture`. -/
def decliningEnv : CreateEnv :=
  { proxyStatus := ReplayStatus.Succeeded, proxy := some sampleProxy,
    reload := openEnv (bitmapFile 1 1 [1, 2, 3, 255]) nullId }

/-- An EXR file whose version block parses and reports a tiled image. -/
def tiledExr : ImageFile :=
  ImageFile.exr 0 { tiled := true, non_image := false, multipart := false } 0
    { num_channels := 0, channels := [] } 0
    { width := 0, height := 0, num_channels := 0, images := [] }

/-- A decoded 32768 by 32768 EXR image with the single channel "G", every sample `g`. -/
def hugeGreenHeader : EXRHeader :=
  { num_channels := 1, channels := [{ name := ['G'] }] }

def hugeGreenImage (g : Nat) : EXRImage :=
  { width := 32768, height := 32768, num_channels := 1,
    images := [List.replicate (32768 * 32768) g] }

/-- A decoded DDS file: 1 by 4 texels of one byte, 2 array slices with 2 mips each. -/
def sampleDds : dds_data :=
  { width := 1, height := 4, depth := 1, mips := 2, slices := 2, cubemap := false
    format := { type := ResourceFormatType.Regular, compType := CompType.UNorm,
                compCount := 1, compByteWidth := 1 }
    subdata := [[1, 2, 3, 4], [5, 6], [7, 8, 9, 10], [11, 12]]
    subsizes := [4, 2, 4, 2] }

def sampleDdsEnv : ReloadEnv := openEnv (ImageFile.dds (some sampleDds)) 9

/-- The initial load meets a readable 1 by 1 bitmap; the proxy returns handle 7. -/
def firstLoadEnv : ReloadEnv := openEnv (bitmapFile 1 1 [1, 2, 3, 255]) 7

/-- The adapter that construction on `firstLoadEnv` yields (see `constructedViewer_eq`). -/
def constructedViewer : ImageViewer :=
  { m_Props := { pipelineType := GraphicsAPI.D3D11, localRenderer := GraphicsAPI.OpenGL,
                 degraded := false }
    m_FrameRecord :=
      { frameInfo := { frameNumber := 1, fileOffset := 0, uncompressedFileSize := 4,
                       compressedFileSize := 4, persistentSize := 0, initDataSize := 0 }
        drawcallList := [{ eventId := 1, drawcallId := 1, name := "image.png" }] }
    m_PipelineState := { renderTargets := [7] }
    m_Filename := "image.png"
    m_TextureID := 7
    m_CustomTexID := 0
    m_Resources := [{ resourceId := 7, autogeneratedName := false, name := "image.png" }]
    m_TexDetails := zeroTexDetails }

/-- A readable 1 by 1 HDR image. -/
def sampleHdrEnv : ReloadEnv :=
  openEnv (ImageFile.hdr (some { x := 1, y := 1, data := [0, 0, 0, 1065353216] })) 9

/-- A decoded 2 by 1 EXR image with the single channel "G". -/
def smallGreenImage : EXRImage :=
  { width := 2, height := 1, num_channels := 1, images := [[10, 20]] }

def sampleExrEnv : ReloadEnv :=
  openEnv
    (ImageFile.exr 0 { tiled := false, non_image := false, multipart := false } 0
      hugeGreenHeader 0 smallGreenImage) 9

/-! ## Theorems -/

@[simp] theorem setDataSizes_m_TextureID (self : ImageViewer) (n : Nat) :
    (setDataSizes self n).m_TextureID = self.m_TextureID := rfl

@[simp] theorem setDataSizes_m_TexDetails (self : ImageViewer) (n : Nat) :
    (setDataSizes self n).m_TexDetails = self.m_TexDetails := rfl

@[simp] theorem setUncompressed_m_TextureID (self : ImageViewer) (n : Nat) :
    (setUncompressed self n).m_TextureID = self.m_TextureID := rfl

@[simp] theorem setUncompressed_m_TexDetails (self : ImageViewer) (n : Nat) :
    (setUncompressed self n).m_TexDetails = self.m_TexDetails := rfl

@[simp] theorem copyCompressed_m_TextureID (self : ImageViewer) :
    (copyCompressed self).m_TextureID = self.m_TextureID := rfl

@[simp] theorem copyCompressed_m_TexDetails (self : ImageViewer) :
    (copyCompressed self).m_TexDetails = self.m_TexDetails := rfl

theorem createAndUpload_keeps_m_TexDetails (self : ImageViewer) (createRet : ResourceId)
    (texDetails : TextureDescription) (uploads : ResourceId → Option (List Event))
    (before : List Event) (r : ImageViewer × List Event)
    (h : createAndUpload self createRet texDetails uploads before = some r) :
    r.1.m_TexDetails = self.m_TexDetails := by
  unfold createAndUpload at h
  simp only at h
  split at h
  · simp at h
  · simp only [Option.some.injEq] at h
    rw [← h]

theorem refreshOpened_keeps_m_TexDetails (self : ImageViewer) (env : ReloadEnv)
    (r : ImageViewer × List Event) (h : refreshOpened self env = some r) :
    r.1.m_TexDetails = self.m_TexDetails := by
  unfold refreshOpened at h
  split at h
  · simp at h
  · simp only [Option.some.injEq] at h
    subst h
    rfl
  · simp only at h
    split at h
    · split at h
      · split at h
        · simp at h
        · exact (createAndUpload_keeps_m_TexDetails _ _ _ _ _ _ h).trans rfl
      · simp only [Option.some.injEq] at h
        subst h
        rfl
    · exact (createAndUpload_keeps_m_TexDetails _ _ _ _ _ _ h).trans rfl

theorem RefreshFile_keeps_m_TexDetails (self : ImageViewer) (env : ReloadEnv)
    (r : ImageViewer × List Event) (h : RefreshFile self env = some r) :
    r.1.m_TexDetails = self.m_TexDetails := by
  unfold RefreshFile at h
  simp only at h
  split at h
  · cases hr : refreshOpened self env with
    | none => rw [hr] at h; simp at h
    | some p =>
      rw [hr] at h
      simp only [Option.some.injEq] at h
      rw [← h]
      exact refreshOpened_keeps_m_TexDetails self env p hr
  · simp only [Option.some.injEq] at h
    rw [← h]

theorem toU32_natCast (w : Nat) (hw : w < 4294967296) : toU32 (w : Int) = w := by
  unfold toU32
  omega

theorem decodeFile_bitmap (m_TextureID : ResourceId) (w h : Nat) (px : List Nat)
    (hw : 0 < w) (hw2 : w < 4294967295) (hh : 0 < h) (hh2 : h < 4294967295) :
    decodeFile m_TextureID (bitmapFile w h px) =
      some (Decode.loaded (bitmapTexDetails m_TextureID w h) false px (computeDatasize w h 1)
        [Event.stbiInfo, Event.stbiLoad]) := by
  have e1 : toU32 (w : Int) = w := toU32_natCast w (by omega)
  have e2 : toU32 (h : Int) = h := toU32_natCast h (by omega)
  simp only [decodeFile, bitmapFile, e1, e2, allOnes, bitmapTexDetails]
  rw [if_neg]
  simp only [Bool.or_eq_true, decide_eq_true_eq]
  omega

/-- What `RefreshFile` does with a readable `w` by `h` bitmap (`0 < w, h < 2^32 - 1`): the
handle is kept only if the stored `m_TexDetails` has this shape. -/
theorem RefreshFile_bitmap (self : ImageViewer) (w h : Nat) (px : List Nat) (createRet : ResourceId)
    (hw : 0 < w) (hw2 : w < 4294967295) (hh : 0 < h) (hh2 : h < 4294967295) :
    RefreshFile self (openEnv (bitmapFile w h px) createRet) =
      some
        ({ copyCompressed (setDataSizes self (computeDatasize w h 1)) with
            m_TextureID :=
              if self.m_TextureID ≠ nullId ∧
                  shapeDiffers self.m_TexDetails (bitmapTexDetails self.m_TextureID w h) = false
              then self.m_TextureID else createRet },
          [Event.fopen true, Event.stbiInfo, Event.stbiLoad] ++
            (if self.m_TextureID ≠ nullId ∧
                  shapeDiffers self.m_TexDetails (bitmapTexDetails self.m_TextureID w h) = false
              then [] else [Event.createProxyTexture (bitmapTexDetails self.m_TextureID w h)]) ++
            [Event.setProxyTextureData
                (if self.m_TextureID ≠ nullId ∧
                    shapeDiffers self.m_TexDetails (bitmapTexDetails self.m_TextureID w h) = false
                  then self.m_TextureID else createRet) 0 0 px (computeDatasize w h 1),
              Event.fclose]) := by
  simp only [RefreshFile, openEnv, openLoop, refreshOpened, if_true,
    decodeFile_bitmap self.m_TextureID w h px hw hw2 hh hh2, createAndUpload]
  by_cases hk : self.m_TextureID ≠ nullId ∧
      shapeDiffers self.m_TexDetails (bitmapTexDetails self.m_TextureID w h) = false
  · have hk1 := hk.1
    have hk2 := hk.2
    simp [hk1, hk2]
  · by_cases h0 : self.m_TextureID = nullId
    · simp [h0]
    · have hk2 : shapeDiffers self.m_TexDetails (bitmapTexDetails self.m_TextureID w h)
          = true := by
        by_contra hc
        exact hk ⟨h0, by simpa using hc⟩
      simp [h0, hk2]

theorem shapeDiffers_of_width (a b : TextureDescription) (h : a.width ≠ b.width) :
    shapeDiffers a b = true := by
  simp [shapeDiffers, h]

/-- C1 (violated by the code): whatever the default-constructed `TextureDescription` is,
there is a bitmap width `w` such that, after construction on a `w` by 1 bitmap, two
successive successful reloads of `w` by 1 bitmaps (same shape, other pixels) each ask the
proxy for a new texture: the handle after the second reload (9) is not the handle after
the first (8), and the stored `m_TexDetails` is still the default-constructed one. -/
theorem RefreshFile_same_shape_recreates (ext : Externals) (proxy : Proxy) (filename : String)
    (px0 px1 px2 : List Nat) :
    ∃ (w : Nat) (s0 s1 s2 : ImageViewer) (t0 t1 t2 : List Event),
      newImageViewer ext proxy filename (openEnv (bitmapFile w (1 : Nat) px0) 7) = some (s0, t0) ∧
      RefreshFile s0 (openEnv (bitmapFile w (1 : Nat) px1) 8) = some (s1, t1) ∧
      RefreshFile s1 (openEnv (bitmapFile w (1 : Nat) px2) 9) = some (s2, t2) ∧
      decodeFile s0.m_TextureID (bitmapFile w (1 : Nat) px1) =
        some (Decode.loaded (bitmapTexDetails 7 w 1) false px1 (computeDatasize w 1 1)
          [Event.stbiInfo, Event.stbiLoad]) ∧
      decodeFile s1.m_TextureID (bitmapFile w (1 : Nat) px2) =
        some (Decode.loaded (bitmapTexDetails 8 w 1) false px2 (computeDatasize w 1 1)
          [Event.stbiInfo, Event.stbiLoad]) ∧
      shapeDiffers (bitmapTexDetails 7 w 1) (bitmapTexDetails 8 w 1) = false ∧
      s1.m_TextureID = 8 ∧ s2.m_TextureID = 9 ∧
      s2.m_TexDetails = ext.texDetails ∧
      t2 = [Event.fopen true, Event.stbiInfo, Event.stbiLoad,
            Event.createProxyTexture (bitmapTexDetails 8 w 1),
            Event.setProxyTextureData 9 0 0 px2 (computeDatasize w 1 1), Event.fclose] := by
  obtain ⟨w, hw, hw2, hne⟩ : ∃ w : Nat, 0 < w ∧ w < 4294967295 ∧ ext.texDetails.width ≠ w := by
    by_cases h : ext.texDetails.width = 1
    · exact ⟨2, by omega, by omega, by omega⟩
    · exact ⟨1, by omega, by omega, h⟩
  have d7 : shapeDiffers ext.texDetails (bitmapTexDetails 7 w 1) = true :=
    shapeDiffers_of_width _ _ hne
  have d8 : shapeDiffers ext.texDetails (bitmapTexDetails 8 w 1) = true :=
    shapeDiffers_of_width _ _ hne
  exact ⟨w, _, _, _, _, _, _,
    by
      simp only [newImageViewer]
      rw [RefreshFile_bitmap _ w 1 px0 7 hw hw2 (by omega) (by omega)],
    by rw [RefreshFile_bitmap _ w 1 px1 8 hw hw2 (by omega) (by omega)],
    by rw [RefreshFile_bitmap _ w 1 px2 9 hw hw2 (by omega) (by omega)],
    by simpa [nullId] using decodeFile_bitmap 7 w 1 px1 hw hw2 (by omega) (by omega),
    by simpa [nullId, d7] using decodeFile_bitmap 8 w 1 px2 hw hw2 (by omega) (by omega),
    by simp [shapeDiffers, bitmapTexDetails, initialTexDetails],
    by simp [nullId, d7],
    by simp [nullId, d7, d8],
    by simp,
    by simp [nullId, d7, d8]⟩

theorem sumSubsizes_isSome (subsizes : List Nat) (n : Nat) (h : n ≤ subsizes.length) :
    ∃ total, sumSubsizes subsizes n = some total := by
  induction n with
  | zero => exact ⟨0, rfl⟩
  | succ k ih =>
    obtain ⟨acc, hacc⟩ := ih (by omega)
    have hk : k < subsizes.length := by omega
    refine ⟨(acc + subsizes[k]) % U64, ?_⟩
    simp [sumSubsizes, hacc, List.getElem?_eq_getElem hk]

theorem ddsUploads_isSome (texid : ResourceId) (mips : Nat) (rd : dds_data) (left : Nat) :
    ∀ i : Nat, i + left ≤ rd.subdata.length → i + left ≤ rd.subsizes.length →
      ∃ ups, ddsUploads texid mips rd left i = some ups ∧ ups.length = left ∧
        ∀ e ∈ ups, isUploadTo texid e = true := by
  induction left with
  | zero =>
    intro i _ _
    exact ⟨[], rfl, rfl, by simp⟩
  | succ k ih =>
    intro i h1 h2
    obtain ⟨rest, hrest, hlen, hall⟩ := ih (i + 1) (by omega) (by omega)
    have hi1 : i < rd.subdata.length := by omega
    have hi2 : i < rd.subsizes.length := by omega
    refine ⟨Event.setProxyTextureData texid (i / mips) (i % mips) rd.subdata[i] rd.subsizes[i]
      :: rest, ?_, ?_, ?_⟩
    · simp [ddsUploads, hrest, List.getElem?_eq_getElem hi1, List.getElem?_eq_getElem hi2]
    · simp [hlen]
    · intro e he
      rcases List.mem_cons.mp he with h | h
      · subst h
        simp [isUploadTo]
      · exact hall e h

theorem createAndUpload_recreate (self : ImageViewer) (createRet : ResourceId)
    (texDetails : TextureDescription) (uploads : ResourceId → Option (List Event))
    (before ups : List Event) (hid : self.m_TextureID ≠ nullId)
    (hdiff : shapeDiffers self.m_TexDetails texDetails = true)
    (hups : uploads createRet = some ups) :
    createAndUpload self createRet texDetails uploads before =
      some ({ self with m_TextureID := createRet },
        before ++ [Event.createProxyTexture texDetails] ++ ups ++ [Event.fclose]) := by
  simp [createAndUpload, hid, hdiff, hups]

theorem shapeDiffers_eq_true_iff (a b : TextureDescription) :
    shapeDiffers a b = true ↔
      (a.width ≠ b.width ∨ a.height ≠ b.height ∨ a.depth ≠ b.depth ∨ a.mips ≠ b.mips ∨
        a.arraysize ≠ b.arraysize ∨ a.cubemap ≠ b.cubemap ∨ a.format ≠ b.format) := by
  simp only [shapeDiffers, Bool.or_eq_true, bne_iff_ne]
  tauto

theorem openLoop_noProxy (opens : Nat → Bool) (left : Nat) :
    ∀ attempt : Nat, ∀ e ∈ (openLoop opens left attempt).2, isProxyCall e = false := by
  induction left with
  | zero =>
    intro attempt e he
    simp [openLoop] at he
  | succ k ih =>
    intro attempt e he
    unfold openLoop at he
    split at he
    · simp only [List.mem_singleton] at he
      subst he
      rfl
    · simp only [List.mem_cons] at he
      rcases he with h | h | h
      · subst h
        rfl
      · subst h
        rfl
      · exact ih (attempt + 1) e h

theorem decodeFile_events_noProxy (m_TextureID : ResourceId) (file : ImageFile) (dc : Decode)
    (h : decodeFile m_TextureID file = some dc) :
    ∀ e ∈ dc.events, isProxyCall e = false := by
  cases file with
  | exr versionRet version headerRet header loadRet image =>
    simp only [decodeFile] at h
    split_ifs at h
    · cases h
      simp [Decode.events, isProxyCall]
    · cases h
      simp [Decode.events, isProxyCall]
    · cases h
      simp [Decode.events, isProxyCall]
    · cases h
      simp [Decode.events, isProxyCall]
    · split at h
      · cases h
      · cases h
        simp [Decode.events, isProxyCall]
  | hdr load =>
    cases load with
    | none =>
      simp only [decodeFile] at h
      cases h
      simp [Decode.events, isProxyCall]
    | some img =>
      simp only [decodeFile] at h
      cases h
      simp [Decode.events, isProxyCall]
  | dds load =>
    simp only [decodeFile] at h
    cases h
    simp [Decode.events]
  | other info load =>
    simp only [decodeFile] at h
    split_ifs at h
    · cases h
      simp [Decode.events, isProxyCall]
    · cases load with
      | none =>
        cases h
        simp [Decode.events, isProxyCall]
      | some img =>
        cases h
        simp [Decode.events, isProxyCall]

theorem ddsTexDetails_arraysize (t : TextureDescription) (rd : dds_data) :
    (ddsTexDetails t rd).arraysize = rd.slices := by
  unfold ddsTexDetails
  simp only
  split_ifs <;> rfl

theorem ddsTexDetails_mips (t : TextureDescription) (rd : dds_data) :
    (ddsTexDetails t rd).mips = rd.mips := by
  unfold ddsTexDetails
  simp only
  split_ifs <;> rfl

theorem refreshOpened_recreate (self : ImageViewer) (env : ReloadEnv) (d : TextureDescription)
    (hid : self.m_TextureID ≠ nullId)
    (hdec : decodedDescriptor self.m_TextureID env.file = some d)
    (hok : ddsArraysOk env.file = true)
    (hdiff : shapeDiffers self.m_TexDetails d = true) :
    ∃ (r : ImageViewer × List Event) (pre ups : List Event),
      refreshOpened self env = some r ∧
      r.2 = pre ++ Event.createProxyTexture d :: ups ++ [Event.fclose] ∧
      (∀ e ∈ pre, isProxyCall e = false) ∧
      (∀ e ∈ ups, isUploadTo env.createRet e = true) ∧
      r.1.m_TextureID = env.createRet := by
  unfold decodedDescriptor at hdec
  cases hdc : decodeFile self.m_TextureID env.file with
  | none => simp [hdc] at hdec
  | some dc =>
    have hev := decodeFile_events_noProxy _ _ _ hdc
    cases dc with
    | abort events => simp [hdc] at hdec
    | loaded texDetails dds data datasize events =>
      cases dds with
      | false =>
        simp only [hdc, Option.some.injEq] at hdec
        subst hdec
        simp only [refreshOpened, hdc, Bool.false_eq_true, if_false]
        rw [createAndUpload_recreate (copyCompressed (setDataSizes self datasize)) env.createRet
          texDetails _ events [Event.setProxyTextureData env.createRet 0 0 data datasize] hid
          hdiff rfl]
        refine ⟨_, events, [Event.setProxyTextureData env.createRet 0 0 data datasize], rfl,
          ?_, hev, ?_, rfl⟩
        · simp
        · simp [isUploadTo]
      | true =>
        cases hf : env.file with
        | exr a b c e f g =>
          rw [hdc, hf] at hdec
          simp at hdec
        | hdr load =>
          rw [hdc, hf] at hdec
          simp at hdec
        | other info load =>
          rw [hdc, hf] at hdec
          simp at hdec
        | dds load =>
          cases load with
          | none =>
            rw [hdc, hf] at hdec
            simp at hdec
          | some rd =>
            rw [hdc, hf] at hdec
            simp only [Option.some.injEq] at hdec
            rw [hf] at hdc
            subst hdec
            simp only [hf, ddsArraysOk, decide_eq_true_eq] at hok
            obtain ⟨total, htotal⟩ := sumSubsizes_isSome rd.subsizes
              (rd.slices * rd.mips % U32) hok.2
            obtain ⟨ups, hups, _, hall⟩ := ddsUploads_isSome env.createRet rd.mips rd
              (rd.slices * rd.mips % U32) 0 (by omega) (by omega)
            simp only [refreshOpened, hdc, hf, if_true, ddsTexDetails_arraysize,
              ddsTexDetails_mips, htotal]
            rw [createAndUpload_recreate
              (copyCompressed (setUncompressed (setDataSizes self datasize) total)) env.createRet
              _ _ _ ups hid hdiff hups]
            refine ⟨_, events ++ [Event.loadDDS], ups, rfl, ?_, ?_, hall, rfl⟩
            · simp
            · intro e he
              rcases List.mem_append.mp he with h | h
              · exact hev e h
              · simp only [List.mem_singleton] at h
                subst h
                rfl

/-- The comparison `RefreshFile` makes, against the member `m_TexDetails`: a reload that
opens the file and decodes it to descriptor `d`, on an adapter that holds a valid handle
and whose member `m_TexDetails` differs from `d` in width,
height, depth, mip count, array size, cubemap flag or pixel format, gives up the handle:
the proxy calls are exactly `CreateProxyTexture d` followed by uploads to the handle the
proxy returned, which is the adapter's handle afterwards. -/
theorem RefreshFile_shape_change_recreates (self : ImageViewer) (env : ReloadEnv)
    (d : TextureDescription)
    (hopen : (openLoop env.opens 10 0).1 = true)
    (hid : self.m_TextureID ≠ nullId)
    (hdec : decodedDescriptor self.m_TextureID env.file = some d)
    (hok : ddsArraysOk env.file = true)
    (hdiff : self.m_TexDetails.width ≠ d.width ∨ self.m_TexDetails.height ≠ d.height ∨
      self.m_TexDetails.depth ≠ d.depth ∨ self.m_TexDetails.mips ≠ d.mips ∨
      self.m_TexDetails.arraysize ≠ d.arraysize ∨ self.m_TexDetails.cubemap ≠ d.cubemap ∨
      self.m_TexDetails.format ≠ d.format) :
    ∃ (r : ImageViewer × List Event) (pre ups : List Event),
      RefreshFile self env = some r ∧
      r.2 = pre ++ Event.createProxyTexture d :: ups ++ [Event.fclose] ∧
      (∀ e ∈ pre, isProxyCall e = false) ∧
      (∀ e ∈ ups, isUploadTo env.createRet e = true) ∧
      r.1.m_TextureID = env.createRet := by
  obtain ⟨r, pre, ups, hr, htrace, hpre, hups, hidr⟩ :=
    refreshOpened_recreate self env d hid hdec hok ((shapeDiffers_eq_true_iff _ _).mpr hdiff)
  refine ⟨(r.1, (openLoop env.opens 10 0).2 ++ r.2), (openLoop env.opens 10 0).2 ++ pre, ups,
    ?_, ?_, ?_, hups, hidr⟩
  · simp [RefreshFile, hopen, hr]
  · simp [htrace]
  · intro e he
    rcases List.mem_append.mp he with h | h
    · exact openLoop_noProxy env.opens 10 0 e h
    · exact hpre e h

theorem RefreshFile_shape_change_recreates_witness :
    ∃ (r : ImageViewer × List Event) (pre ups : List Event),
      RefreshFile sampleViewer tallBitmapEnv = some r ∧
      r.2 = pre ++ Event.createProxyTexture (bitmapTexDetails 7 1 2) :: ups ++ [Event.fclose] ∧
      (∀ e ∈ pre, isProxyCall e = false) ∧
      (∀ e ∈ ups, isUploadTo tallBitmapEnv.createRet e = true) ∧
      r.1.m_TextureID = tallBitmapEnv.createRet :=
  RefreshFile_shape_change_recreates sampleViewer tallBitmapEnv (bitmapTexDetails 7 1 2)
    (by decide) (by decide) (by decide) (by decide) (by decide)

/-- Every return inside the format branches (EXR version, header or load failure, HDR or
bitmap load without data, bitmap probe turned down) leaves the adapter as it was. -/
theorem refreshOpened_abort (self : ImageViewer) (env : ReloadEnv) (events : List Event)
    (h : decodeFile self.m_TextureID env.file = some (Decode.abort events)) :
    refreshOpened self env = some (self, events) := by
  simp [refreshOpened, h]

/-- C3 (violated by the code): when the file opens, is recognised as DDS and
`load_dds_from_file` returns no sub-buffers, `RefreshFile` has already stored
`initDataSize = 0`, `persistentSize = 0` and `uncompressedFileSize = 0` in the frame
record before it returns.  On an adapter loaded with a 1 by 1 bitmap the uncompressed
size goes from 4 to 0 while the compressed size stays 4; no proxy call is made. -/
theorem RefreshFile_failed_dds_resets_sizes (self : ImageViewer) (createRet : ResourceId) :
    RefreshFile self (openEnv (ImageFile.dds none) createRet) =
        some (setDataSizes self 0, [Event.fopen true, Event.loadDDS, Event.fclose]) ∧
      sampleViewer.m_FrameRecord.frameInfo.uncompressedFileSize = 4 ∧
      (setDataSizes sampleViewer 0).m_FrameRecord.frameInfo.uncompressedFileSize = 0 ∧
      (setDataSizes sampleViewer 0).m_FrameRecord.frameInfo.compressedFileSize = 4 ∧
      setDataSizes sampleViewer 0 ≠ sampleViewer := by
  refine ⟨?_, rfl, rfl, rfl, ?_⟩
  · simp [RefreshFile, openEnv, openLoop, refreshOpened, decodeFile]
  · intro h
    have h2 := congrArg (fun v => v.m_FrameRecord.frameInfo.uncompressedFileSize) h
    simp [setDataSizes, sampleViewer, U64] at h2

theorem openLoop_first_success (opens : Nat → Bool) (j : Nat) :
    ∀ left attempt : Nat, j < left → (∀ i < j, opens (attempt + i) = false) →
      opens (attempt + j) = true →
      openLoop opens left attempt = (true, failedAttempts j ++ [Event.fopen true]) := by
  induction j with
  | zero =>
    intro left attempt hl _ hs
    obtain ⟨l, rfl⟩ : ∃ l, left = l + 1 := ⟨left - 1, by omega⟩
    simp only [Nat.add_zero] at hs
    simp [openLoop, hs, failedAttempts]
  | succ k ih =>
    intro left attempt hl hf hs
    obtain ⟨l, rfl⟩ : ∃ l, left = l + 1 := ⟨left - 1, by omega⟩
    have h0 : opens attempt = false := by simpa using hf 0 (by omega)
    have hrec := ih l (attempt + 1) (by omega)
      (fun i hi => by
        have := hf (i + 1) (by omega)
        rwa [show attempt + 1 + i = attempt + (i + 1) by omega])
      (by rwa [show attempt + 1 + k = attempt + (k + 1) by omega])
    simp [openLoop, h0, hrec, failedAttempts]

theorem openLoop_all_fail (opens : Nat → Bool) (left : Nat) :
    ∀ attempt : Nat, (∀ i < left, opens (attempt + i) = false) →
      openLoop opens left attempt = (false, failedAttempts left) := by
  induction left with
  | zero =>
    intro attempt _
    rfl
  | succ k ih =>
    intro attempt hf
    have h0 : opens attempt = false := by simpa using hf 0 (by omega)
    have hrec := ih (attempt + 1)
      (fun i hi => by
        have := hf (i + 1) (by omega)
        rwa [show attempt + 1 + i = attempt + (i + 1) by omega])
    simp [openLoop, h0, hrec, failedAttempts]

theorem openLoop_fopen_le (opens : Nat → Bool) (left : Nat) :
    ∀ attempt : Nat, ((openLoop opens left attempt).2.countP isFopen) ≤ left := by
  induction left with
  | zero =>
    intro attempt
    simp [openLoop]
  | succ k ih =>
    intro attempt
    unfold openLoop
    split
    · simp [isFopen]
    · have := ih (attempt + 1)
      simp only [List.countP_cons, isFopen]
      simp only [Bool.false_eq_true, if_false, if_true]
      omega

theorem failedAttempts_counts (n : Nat) :
    (failedAttempts n).countP isFopen = n ∧ (failedAttempts n).countP isSleep40 = n ∧
      ∀ e ∈ failedAttempts n, isProxyCall e = false := by
  induction n with
  | zero => simp [failedAttempts]
  | succ k ih =>
    obtain ⟨h1, h2, h3⟩ := ih
    refine ⟨?_, ?_, ?_⟩
    · simp [failedAttempts, List.countP_cons, isFopen, h1]
    · simp [failedAttempts, List.countP_cons, isSleep40, h2]
    · intro e he
      simp only [failedAttempts, List.mem_cons] at he
      rcases he with h | h | h
      · subst h
        rfl
      · subst h
        rfl
      · exact h3 e h

/-- C4: the open loop of `RefreshFile` calls `fopen` at most 10 times.  If attempt `k`
(`1 ≤ k ≤ 10`) is the first that succeeds, the reload makes exactly `k` `fopen` calls and
`k - 1` calls `Sleep(40)` and then runs the decode part on the adapter, whose result it
returns.  If the first 10 attempts all fail, it returns the adapter unchanged and its
calls (`failedAttempts 10`) contain no proxy call. -/
theorem RefreshFile_open_retry (self : ImageViewer) (env : ReloadEnv) (k : Nat)
    (hk1 : 1 ≤ k) (hk2 : k ≤ 10) :
    (openLoop env.opens 10 0).2.countP isFopen ≤ 10 ∧
    ((∀ i < k - 1, env.opens i = false) → env.opens (k - 1) = true →
      RefreshFile self env =
          (refreshOpened self env).map
            (fun r => (r.1, (failedAttempts (k - 1) ++ [Event.fopen true]) ++ r.2)) ∧
        (failedAttempts (k - 1) ++ [Event.fopen true]).countP isFopen = k ∧
        (failedAttempts (k - 1) ++ [Event.fopen true]).countP isSleep40 = k - 1) ∧
    ((∀ i < 10, env.opens i = false) →
      RefreshFile self env = some (self, failedAttempts 10) ∧
        ∀ e ∈ failedAttempts 10, isProxyCall e = false) := by
  refine ⟨openLoop_fopen_le env.opens 10 0, ?_, ?_⟩
  · intro hf hs
    have hloop := openLoop_first_success env.opens (k - 1) 10 0 (by omega)
      (fun i hi => by simpa using hf i hi) (by simpa using hs)
    obtain ⟨c1, c2, _⟩ := failedAttempts_counts (k - 1)
    refine ⟨?_, ?_, ?_⟩
    · simp only [RefreshFile, hloop, if_true]
      cases refreshOpened self env with
      | none => rfl
      | some r => rfl
    · rw [List.countP_append, c1]
      have h1 : [Event.fopen true].countP isFopen = 1 := rfl
      rw [h1]
      omega
    · rw [List.countP_append, c2]
      have h1 : [Event.fopen true].countP isSleep40 = 0 := rfl
      rw [h1]
      rfl
  · intro hf
    have hloop := openLoop_all_fail env.opens 10 0 (fun i hi => by simpa using hf i hi)
    refine ⟨?_, (failedAttempts_counts 10).2.2⟩
    simp [RefreshFile, hloop]

theorem RefreshFile_open_retry_witness :
    RefreshFile sampleViewer lockedTwiceEnv =
        (refreshOpened sampleViewer lockedTwiceEnv).map
          (fun r => (r.1, (failedAttempts (3 - 1) ++ [Event.fopen true]) ++ r.2)) ∧
      (failedAttempts (3 - 1) ++ [Event.fopen true]).countP isFopen = 3 ∧
      (failedAttempts (3 - 1) ++ [Event.fopen true]).countP isSleep40 = 3 - 1 :=
  (RefreshFile_open_retry sampleViewer lockedTwiceEnv 3 (by decide) (by decide)).2.1
    (by decide) (by decide)

/-- C5 (violated by the code): when `CreateProxyReplayDriver` reports `Succeeded` and leaves
`proxy` NULL, `IMG_CreateReplayDevice` takes the error branch `status != Succeeded ||
!proxy` and returns `status`, that is `Succeeded`, without constructing an `ImageViewer`
and without storing anything in `*driver`. -/
theorem IMG_CreateReplayDevice_succeeded_without_driver (ext : Externals) (filename : String)
    (px : List Nat) (reload : ReloadEnv) :
    IMG_CreateReplayDevice ext
        (some { filename := filename, imageFile := some (bitmapFile 1 1 px) })
        { proxyStatus := ReplayStatus.Succeeded, proxy := none, reload := reload } =
      some { status := ReplayStatus.Succeeded, driver := none,
             events := [Event.stbiInfo, Event.stbiLoad, Event.fclose,
                        Event.createProxyReplayDriver] } := by
  simp [IMG_CreateReplayDevice, recogniseFile, bitmapFile]

/-- C6: `IMG_CreateReplayDevice` returns `InternalError` for a NULL `rdc`; it returns
`FileIOFailed`, with no call made at all and nothing stored in `*driver`, when
`StealImageFileHandle` gives no file; and when the `ImageViewer` it constructs has a null
`resourceId` in its first resource, it shuts the viewer down (the viewer is deleted, its
destructor shuts the proxy down) and returns `ImageUnsupported`. -/
theorem IMG_CreateReplayDevice_failures (ext : Externals) (env : CreateEnv) (filename : String)
    (f : ImageFile) (proxy : Proxy) (viewer : ImageViewer) (events : List Event) :
    IMG_CreateReplayDevice ext none env =
        some { status := ReplayStatus.InternalError, driver := none, events := [] } ∧
    IMG_CreateReplayDevice ext (some { filename := filename, imageFile := none }) env =
        some { status := ReplayStatus.FileIOFailed, driver := none, events := [] } ∧
    ((recogniseFile f).1 = true → env.proxyStatus = ReplayStatus.Succeeded →
      env.proxy = some proxy →
      newImageViewer ext proxy filename env.reload = some (viewer, events) →
      (∃ res rest, viewer.m_Resources = res :: rest ∧ res.resourceId = nullId) →
      IMG_CreateReplayDevice ext (some { filename := filename, imageFile := some f }) env =
        some { status := ReplayStatus.ImageUnsupported, driver := some viewer,
               events := (recogniseFile f).2 ++
                 [Event.createProxyReplayDriver, Event.newImageViewer] ++ events ++
                 [Event.deleteImageViewer, Event.proxyShutdown] }) := by
  refine ⟨rfl, rfl, ?_⟩
  intro hrec hst hproxy hnew hres
  obtain ⟨res, rest, hm, hnull⟩ := hres
  simp [IMG_CreateReplayDevice, hrec, hst, hproxy, hnew, hm, hnull]

theorem IMG_CreateReplayDevice_failures_witness :
    ∃ viewer events,
      newImageViewer sampleExternals sampleProxy "image.png" decliningEnv.reload =
        some (viewer, events) ∧
      IMG_CreateReplayDevice sampleExternals (some sampleRDCFile) decliningEnv =
        some { status := ReplayStatus.ImageUnsupported, driver := some viewer,
               events := (recogniseFile (bitmapFile 1 1 [1, 2, 3, 255])).2 ++
                 [Event.createProxyReplayDriver, Event.newImageViewer] ++ events ++
                 [Event.deleteImageViewer, Event.proxyShutdown] } :=
  ⟨_, _, rfl,
    (IMG_CreateReplayDevice_failures sampleExternals decliningEnv "image.png"
      (bitmapFile 1 1 [1, 2, 3, 255]) sampleProxy _ _).2.2 (by decide) rfl rfl rfl
      ⟨_, _, rfl, rfl⟩⟩

/-- C8 (violated by the code in `RefreshFile`): for a bitmap whose probe reports width
65536 (height 1), `IMG_CreateReplayDevice` returns `ImageUnsupported` after the probe
alone, but `RefreshFile`, whose test is only `== 0` and `== ~0U`, goes on to
`stbi_load_from_file`, `CreateProxyTexture` and `SetProxyTextureData`.  The same holds
for a probe reporting a negative width other than -1: the full decode is attempted. -/
theorem RefreshFile_oversized_probe_decodes (ext : Externals) (env : CreateEnv)
    (self : ImageViewer) (px : List Nat) (createRet : ResourceId) :
    IMG_CreateReplayDevice ext
        (some { filename := "image.png", imageFile := some (bitmapFile 65536 1 px) }) env =
      some { status := ReplayStatus.ImageUnsupported, driver := none,
             events := [Event.stbiInfo, Event.fclose] } ∧
    RefreshFile sampleViewer (openEnv (bitmapFile 65536 1 px) 9) =
      some ({ copyCompressed (setDataSizes sampleViewer 262144) with m_TextureID := 9 },
        [Event.fopen true, Event.stbiInfo, Event.stbiLoad,
         Event.createProxyTexture (bitmapTexDetails 7 65536 1),
         Event.setProxyTextureData 9 0 0 px 262144, Event.fclose]) ∧
    RefreshFile self (openEnv (ImageFile.other { ret := 1, x := -5, y := 3 } none) createRet) =
      some (self, [Event.fopen true, Event.stbiInfo, Event.stbiLoad, Event.fclose]) := by
  refine ⟨?_, ?_, ?_⟩
  · simp [IMG_CreateReplayDevice, recogniseFile, bitmapFile]
  · have h := RefreshFile_bitmap sampleViewer 65536 1 px 9 (by omega) (by omega) (by omega)
      (by omega)
    have hd : shapeDiffers sampleViewer.m_TexDetails
        (bitmapTexDetails sampleViewer.m_TextureID 65536 1) = true := by decide
    have hsz : computeDatasize 65536 1 1 = 262144 := by decide
    simp only [hd, hsz, Nat.cast_ofNat, Nat.cast_one] at h
    rw [h]
    simp [sampleViewer]
  · have e1 : toU32 (-5) = 4294967291 := by decide
    have e2 : toU32 3 = 3 := by decide
    simp [RefreshFile, openEnv, openLoop, refreshOpened, decodeFile, e1, e2, allOnes]

theorem openLoop_only_open (opens : Nat → Bool) (left : Nat) :
    ∀ attempt : Nat, ∀ e ∈ (openLoop opens left attempt).2, isOpenLoopCall e = true := by
  induction left with
  | zero =>
    intro attempt e he
    simp [openLoop] at he
  | succ k ih =>
    intro attempt e he
    unfold openLoop at he
    split at he
    · simp only [List.mem_singleton] at he
      subst he
      rfl
    · simp only [List.mem_cons] at he
      rcases he with h | h | h
      · subst h
        rfl
      · subst h
        rfl
      · exact ih (attempt + 1) e h

/-- C9: an EXR file whose version block reports multipart, non_image or tiled is turned
down before anything is loaded.  `IMG_CreateReplayDevice` returns `ImageUnsupported`
after `ParseEXRVersionFromMemory` and `fclose` alone, with nothing stored in `*driver`;
`RefreshFile` returns the adapter unchanged, and after the open loop its only calls are
`ParseEXRVersionFromMemory` and `fclose`. -/
theorem exr_unsupported_variant_rejected (ext : Externals) (env : CreateEnv)
    (self : ImageViewer) (opens : Nat → Bool) (createRet : ResourceId) (filename : String)
    (versionRet headerRet loadRet : Int) (version : EXRVersion) (header : EXRHeader)
    (image : EXRImage)
    (hflag : version.multipart = true ∨ version.non_image = true ∨ version.tiled = true) :
    IMG_CreateReplayDevice ext
        (some { filename := filename,
                imageFile :=
                  some (ImageFile.exr versionRet version headerRet header loadRet image) })
        env =
      some { status := ReplayStatus.ImageUnsupported, driver := none,
             events := [Event.parseEXRVersion, Event.fclose] } ∧
    RefreshFile self
        { opens := opens
          file := ImageFile.exr versionRet version headerRet header loadRet image
          createRet := createRet } =
      some (self,
        (openLoop opens 10 0).2 ++
          (if (openLoop opens 10 0).1 = true then [Event.parseEXRVersion, Event.fclose]
           else [])) ∧
    ∀ e ∈ (openLoop opens 10 0).2 ++ [Event.parseEXRVersion, Event.fclose],
      isProxyCall e = false ∧ e ≠ Event.loadEXRImage ∧ e ≠ Event.parseEXRHeader := by
  have hor : (version.multipart || version.non_image || version.tiled) = true := by
    rcases hflag with h | h | h <;> simp [h]
  refine ⟨?_, ?_, ?_⟩
  · by_cases hv : versionRet = 0
    · simp [IMG_CreateReplayDevice, recogniseFile, hv, hor]
    · simp [IMG_CreateReplayDevice, recogniseFile, hv]
  · by_cases ho : (openLoop opens 10 0).1 = true
    · by_cases hv : versionRet = 0
      · simp [RefreshFile, refreshOpened, decodeFile, ho, hv, hor]
      · simp [RefreshFile, refreshOpened, decodeFile, ho, hv]
    · simp [RefreshFile, ho]
  · intro e he
    rcases List.mem_append.mp he with h | h
    · have ho := openLoop_only_open opens 10 0 e h
      cases e <;> simp_all [isOpenLoopCall, isProxyCall]
    · simp only [List.mem_cons, List.mem_singleton, List.mem_nil_iff, or_false] at h
      rcases h with h | h <;> subst h <;> decide

theorem exr_unsupported_variant_rejected_witness :
    IMG_CreateReplayDevice sampleExternals
        (some { filename := "image.exr", imageFile := some tiledExr }) decliningEnv =
      some { status := ReplayStatus.ImageUnsupported, driver := none,
             events := [Event.parseEXRVersion, Event.fclose] } ∧
    RefreshFile sampleViewer
        { opens := fun _ => true, file := tiledExr, createRet := 9 } =
      some (sampleViewer,
        (openLoop (fun _ => true) 10 0).2 ++
          (if (openLoop (fun _ => true) 10 0).1 = true then
            [Event.parseEXRVersion, Event.fclose]
           else [])) ∧
    ∀ e ∈ (openLoop (fun _ => true) 10 0).2 ++ [Event.parseEXRVersion, Event.fclose],
      isProxyCall e = false ∧ e ≠ Event.loadEXRImage ∧ e ≠ Event.parseEXRHeader :=
  exr_unsupported_variant_rejected sampleExternals decliningEnv sampleViewer (fun _ => true) 9
    "image.exr" 0 0 0 { tiled := true, non_image := false, multipart := false }
    { num_channels := 0, channels := [] }
    { width := 0, height := 0, num_channels := 0, images := [] } (Or.inr (Or.inr rfl))

theorem computeDatasize_exact (width height sizeofT : Nat) (h : width * height * 4 < U32)
    (hs : sizeofT ≤ 4) : computeDatasize width height sizeofT = width * height * 4 * sizeofT := by
  unfold computeDatasize
  unfold U32 at h
  have h1 : width * height < 4294967296 := by omega
  have h3 : width * height * 4 * sizeofT ≤ (width * height * 4) * 4 :=
    Nat.mul_le_mul_left _ hs
  simp only [U32, U64]
  rw [Nat.mod_eq_of_lt h1, Nat.mod_eq_of_lt h, Nat.mod_eq_of_lt (by omega)]

/-- C10 (violated by the code): for width = height = 32768, both below 65536, the product
`width * height * 4` is evaluated in `uint32_t` and wraps to 0 before it is widened to
`size_t`, so `datasize` is 0 for the float families (exact product 17179869184) and for
the bitmap family (exact product 4294967296).  For an HDR decode of that size the value
0 is what `RefreshFile` carries on as `datasize`. -/
theorem computeDatasize_wraps (m_TextureID : ResourceId) (px : List Nat) :
    (32768 : Nat) < 65536 ∧
    computeDatasize 32768 32768 4 = 0 ∧ 32768 * 32768 * 4 * 4 = 17179869184 ∧
    computeDatasize 32768 32768 1 = 0 ∧ 32768 * 32768 * 4 * 1 = 4294967296 ∧
    decodeFile m_TextureID (ImageFile.hdr (some { x := 32768, y := 32768, data := px })) =
      some (Decode.loaded
        { initialTexDetails m_TextureID with
          format := rgba32_float, width := 32768, height := 32768 }
        false px 0 [Event.stbiLoadf]) := by
  refine ⟨by decide, by decide, by decide, by decide, by decide, ?_⟩
  have e : toU32 32768 = 32768 := by decide
  have c : computeDatasize 32768 32768 4 = 0 := by decide
  simp [decodeFile, e, c]

theorem fillPixels_empty_buffer (src : List (List Nat)) (ch : Channels) (left i : Nat) :
    fillPixels src ch (left + 1) i [] = none := by
  unfold fillPixels
  have h : fillComponents src ch i 4 0 [] = none := by
    unfold fillComponents
    cases pixelValue src ch i 0 with
    | none => rfl
    | some v => rfl
  rw [h]

/-- C7 (violated by the code for large images): for the 32768 by 32768 image with the
single channel "G", `datasize` wraps to 0, `malloc(0)` is the allocation, and the very
first store `rgba[0] = 0.0f` of the pixel loop is outside it: the conversion has no
defined result, where the claim expects (0, g, 0, 1) in every pixel. -/
theorem exrToRGBA_huge_overruns (g : Nat) :
    toU32 (hugeGreenImage g).width = 32768 ∧ toU32 (hugeGreenImage g).height = 32768 ∧
    (∀ s ∈ (hugeGreenImage g).images, s.length = 32768 * 32768) ∧
    computeDatasize 32768 32768 4 / 4 = 0 ∧
    exrToRGBA hugeGreenHeader (hugeGreenImage g) = none := by
  have e : toU32 32768 = 32768 := by decide
  refine ⟨e, e, ?_, by decide, ?_⟩
  · intro s hs
    have hs2 : s = List.replicate (32768 * 32768) g := List.mem_singleton.mp hs
    rw [hs2]
    exact List.length_replicate _ _
  · have c : computeDatasize 32768 32768 4 / 4 = 0 := by decide
    have n : 32768 * 32768 % U32 = 1073741823 + 1 := by decide
    have sc : scanChannels hugeGreenHeader (1 : Int).toNat =
        some { r := -1, g := 0, b := -1, a := -1 } := by decide
    show (match scanChannels hugeGreenHeader (1 : Int).toNat with
      | none => none
      | some ch =>
        fillPixels (hugeGreenImage g).images ch (toU32 32768 * toU32 32768 % U32) 0
          (List.replicate (computeDatasize (toU32 32768) (toU32 32768) 4 / 4) 0)) = none
    rw [sc, e, c, n]
    exact fillPixels_empty_buffer _ _ _ _

theorem storePixel_length (buf : List Nat) (i : Nat) (v : Nat → Nat) :
    (storePixel buf i v).length = buf.length := by
  simp [storePixel]

theorem storePixel_getElem?_lt (buf : List Nat) (i : Nat) (v : Nat → Nat) (k : Nat)
    (hk : k < 4 * i) : (storePixel buf i v)[k]? = buf[k]? := by
  unfold storePixel
  rw [List.getElem?_set_ne (by omega), List.getElem?_set_ne (by omega),
    List.getElem?_set_ne (by omega), List.getElem?_set_ne (by omega)]

theorem storePixel_getElem?_at (buf : List Nat) (i : Nat) (v : Nat → Nat) (c : Nat)
    (hc : c < 4) (hb : 4 * i + 3 < buf.length) :
    (storePixel buf i v)[4 * i + c]? = some (v c) := by
  unfold storePixel
  have hc4 : c = 0 ∨ c = 1 ∨ c = 2 ∨ c = 3 := by omega
  rcases hc4 with h | h | h | h <;> subst h
  · rw [List.getElem?_set_ne (by omega), List.getElem?_set_ne (by omega),
      List.getElem?_set_ne (by omega), List.getElem?_set]
    simp
    omega
  · rw [List.getElem?_set_ne (by omega), List.getElem?_set_ne (by omega), List.getElem?_set]
    simp
    omega
  · rw [List.getElem?_set_ne (by omega), List.getElem?_set]
    simp
    omega
  · rw [List.getElem?_set]
    simp
    omega

theorem fillComponents_four (src : List (List Nat)) (ch : Channels) (i : Nat) (buf : List Nat)
    (v : Nat → Nat) (hv : ∀ c < 4, pixelValue src ch i c = some (v c))
    (hb : 4 * i + 3 < buf.length) (hlt : 4 * i + 3 < U32) :
    fillComponents src ch i 4 0 buf = some (storePixel buf i v) := by
  have h0 := hv 0 (by omega)
  have h1 := hv 1 (by omega)
  have h2 := hv 2 (by omega)
  have h3 := hv 3 (by omega)
  unfold U32 at hlt
  have m0 : (i * 4 % U32 + 0) % U32 = 4 * i := by
    unfold U32
    omega
  have m1 : (i * 4 % U32 + (0 + 1)) % U32 = 4 * i + 1 := by
    unfold U32
    omega
  have m2 : (i * 4 % U32 + (0 + 1 + 1)) % U32 = 4 * i + 2 := by
    unfold U32
    omega
  have m3 : (i * 4 % U32 + (0 + 1 + 1 + 1)) % U32 = 4 * i + 3 := by
    unfold U32
    omega
  have w0 : 4 * i < buf.length := by omega
  have w1 : 4 * i + 1 < buf.length := by omega
  have w2 : 4 * i + 2 < buf.length := by omega
  simp only [fillComponents, h0, h1, h2, h3, m0, m1, m2, m3, writeAt, List.length_set, w0, w1,
    w2, hb, if_true, storePixel]

theorem fillPixels_spec (src : List (List Nat)) (ch : Channels) (v : Nat → Nat → Nat) (n : Nat)
    (hv : ∀ i < n, ∀ c < 4, pixelValue src ch i c = some (v i c)) (hn : n * 4 < U32)
    (left : Nat) :
    ∀ (i : Nat) (buf : List Nat), i + left = n → buf.length = n * 4 →
      ∃ out, fillPixels src ch left i buf = some out ∧ out.length = n * 4 ∧
        (∀ k < 4 * i, out[k]? = buf[k]?) ∧
        ∀ i2 c, i ≤ i2 → i2 < n → c < 4 → out[4 * i2 + c]? = some (v i2 c) := by
  induction left with
  | zero =>
    intro i buf hi hbuf
    refine ⟨buf, rfl, hbuf, fun _ _ => rfl, ?_⟩
    intro i2 c h1 h2 _
    omega
  | succ k ih =>
    intro i buf hi hbuf
    have hin : i < n := by omega
    have hb : 4 * i + 3 < buf.length := by omega
    have hstep := fillComponents_four src ch i buf (v i) (hv i hin) hb (by omega)
    obtain ⟨out, hout, hlen, hkeep, hset⟩ :=
      ih (i + 1) (storePixel buf i (v i)) (by omega) (by rw [storePixel_length, hbuf])
    refine ⟨out, ?_, hlen, ?_, ?_⟩
    · simp only [fillPixels, hstep, hout]
    · intro j hj
      rw [hkeep j (by omega), storePixel_getElem?_lt buf i (v i) j hj]
    · intro i2 c h1 h2 hc
      by_cases he : i2 = i
      · subst he
        rw [hkeep (4 * i2 + c) (by omega), storePixel_getElem?_at buf i2 (v i2) c hc hb]
      · exact hset i2 c (by omega) h2 hc

theorem assignChannel_get (ch : Channels) (name : List Char) (n c : Nat) (hc : c < 4) :
    (assignChannel ch name n).get c =
      if name.head? = some (channelLetter c) then (n : Int) else ch.get c := by
  have hc4 : c = 0 ∨ c = 1 ∨ c = 2 ∨ c = 3 := by omega
  unfold assignChannel
  split
  · rename_i h
    rcases hc4 with e | e | e | e <;> subst e <;> simp [h, Channels.get, channelLetter]
  · rename_i h
    rcases hc4 with e | e | e | e <;> subst e <;> simp [h, Channels.get, channelLetter]
  · rename_i h
    rcases hc4 with e | e | e | e <;> subst e <;> simp [h, Channels.get, channelLetter]
  · rename_i h
    rcases hc4 with e | e | e | e <;> subst e <;> simp [h, Channels.get, channelLetter]
  · rename_i h1 h2 h3 h4
    have n1 : ¬ name.head? = some 'R' := h1
    have n2 : ¬ name.head? = some 'G' := h2
    have n3 : ¬ name.head? = some 'B' := h3
    have n4 : ¬ name.head? = some 'A' := h4
    rcases hc4 with e | e | e | e <;> subst e <;>
      simp only [Channels.get, channelLetter, n1, n2, n3, n4, if_false]

theorem scanChannels_spec (hdr : EXRHeader) (n : Nat) (hn : n ≤ hdr.channels.length) :
    ∃ ch, scanChannels hdr n = some ch ∧ ∀ c < 4,
      (ch.get c = -1 ∧ ∀ j < n, firstChar hdr j ≠ some (channelLetter c)) ∨
      (∃ j < n, ch.get c = (j : Int) ∧ firstChar hdr j = some (channelLetter c) ∧
        ∀ j2, j < j2 → j2 < n → firstChar hdr j2 ≠ some (channelLetter c)) := by
  induction n with
  | zero =>
    refine ⟨{ r := -1, g := -1, b := -1, a := -1 }, rfl, ?_⟩
    intro c hc
    left
    have hc4 : c = 0 ∨ c = 1 ∨ c = 2 ∨ c = 3 := by omega
    refine ⟨?_, fun j hj => absurd hj (by omega)⟩
    rcases hc4 with e | e | e | e <;> subst e <;> rfl
  | succ k ih =>
    obtain ⟨ch, hch, hspec⟩ := ih (by omega)
    have hk : k < hdr.channels.length := by omega
    have hget : hdr.channels[k]? = some hdr.channels[k] := List.getElem?_eq_getElem hk
    have hfc : firstChar hdr k = hdr.channels[k].name.head? := by
      simp [firstChar, hget]
    refine ⟨assignChannel ch hdr.channels[k].name k, ?_, ?_⟩
    · simp [scanChannels, hch, hget]
    · intro c hc
      rw [assignChannel_get ch _ k c hc]
      by_cases hm : hdr.channels[k].name.head? = some (channelLetter c)
      · right
        refine ⟨k, by omega, by simp [hm], by rw [hfc, hm], ?_⟩
        intro j2 h1 h2
        omega
      · rw [if_neg hm]
        rcases hspec c hc with ⟨h1, h2⟩ | ⟨j, hj, h1, h2, h3⟩
        · left
          refine ⟨h1, ?_⟩
          intro j hj
          by_cases hjk : j = k
          · subst hjk
            rw [hfc]
            exact hm
          · exact h2 j (by omega)
        · right
          refine ⟨j, by omega, h1, h2, ?_⟩
          intro j2 hj2 hj2k
          by_cases hjk : j2 = k
          · subst hjk
            rw [hfc]
            exact hm
          · exact h3 j2 hj2 (by omega)

/-- The channel-to-RGBA mapping of the EXR branch, for an image whose `width * height * 4`
fits in 32 bits: the conversion succeeds, fills `width * height * 4` floats, and component
`c` of pixel `i` is the `i`-th sample of the one channel whose name begins with the letter
of `c`, or 0.0 (R, G, B) and 1.0 (A) when no channel name begins with it. -/
theorem exrToRGBA_mapping (hdr : EXRHeader) (img : EXRImage) (w h : Nat)
    (hw : img.width = (w : Int)) (hh : img.height = (h : Int)) (hw2 : w < U32) (hh2 : h < U32)
    (hsz : w * h * 4 < U32)
    (hnc : img.num_channels = (hdr.channels.length : Int))
    (hsrc : img.images.length = hdr.channels.length)
    (hlen : ∀ s ∈ img.images, s.length = w * h) :
    ∃ out, exrToRGBA hdr img = some out ∧ out.length = w * h * 4 ∧
      ∀ i < w * h, ∀ c < 4,
        ((∀ j < hdr.channels.length, firstChar hdr j ≠ some (channelLetter c)) →
          out[4 * i + c]? = some (defaultComponent c)) ∧
        (∀ j < hdr.channels.length, firstChar hdr j = some (channelLetter c) →
          (∀ j2 < hdr.channels.length, firstChar hdr j2 = some (channelLetter c) → j2 = j) →
          ∃ samples, img.images[j]? = some samples ∧ out[4 * i + c]? = samples[i]?) := by
  obtain ⟨ch, hch, hspec⟩ := scanChannels_spec hdr hdr.channels.length (Nat.le_refl _)
  have e1 : toU32 img.width = w := by
    rw [hw]
    exact toU32_natCast w hw2
  have e2 : toU32 img.height = h := by
    rw [hh]
    exact toU32_natCast h hh2
  have e3 : w * h % U32 = w * h := Nat.mod_eq_of_lt (by omega)
  have e4 : computeDatasize w h 4 / 4 = w * h * 4 := by
    rw [computeDatasize_exact w h 4 hsz (Nat.le_refl _)]
    omega
  have e5 : img.num_channels.toNat = hdr.channels.length := by
    rw [hnc]
    rfl
  -- what the pixel loop reads for each component
  have hval : ∀ i < w * h, ∀ c < 4,
      (ch.get c = -1 ∧ pixelValue img.images ch i c = some (defaultComponent c)) ∨
      (∃ j, ∃ hj : j < img.images.length, ch.get c = (j : Int) ∧
        pixelValue img.images ch i c = (img.images[j])[i]?  ∧ i < (img.images[j]).length) := by
    intro i hi c hc
    rcases hspec c hc with ⟨h1, _⟩ | ⟨j, hj, h1, _, _⟩
    · left
      refine ⟨h1, ?_⟩
      simp only [pixelValue, h1, defaultComponent]
      split_ifs <;> first | rfl | omega
    · right
      have hj2 : j < img.images.length := by omega
      refine ⟨j, hj2, h1, ?_, ?_⟩
      · simp [pixelValue, h1, List.getElem?_eq_getElem hj2]
      · rw [hlen _ (List.getElem_mem hj2)]
        exact hi
  have hv : ∀ i < w * h, ∀ c < 4,
      pixelValue img.images ch i c = some ((pixelValue img.images ch i c).getD 0) := by
    intro i hi c hc
    rcases hval i hi c hc with ⟨_, h2⟩ | ⟨j, hj, _, h2, h3⟩
    · rw [h2]
      rfl
    · rw [h2, List.getElem?_eq_getElem h3]
      rfl
  obtain ⟨out, hout, hlen2, _, hset⟩ :=
    fillPixels_spec img.images ch (fun i c => (pixelValue img.images ch i c).getD 0) (w * h)
      hv hsz (w * h) 0 (List.replicate (w * h * 4) 0) (by omega) (by simp)
  refine ⟨out, ?_, hlen2, ?_⟩
  · simp only [exrToRGBA, e1, e2, e3, e4, e5, hch, hout]
  · intro i hi c hc
    have hget := hset i c (Nat.zero_le _) hi hc
    rw [← hv i hi c hc] at hget
    refine ⟨?_, ?_⟩
    · intro hnone
      rcases hspec c hc with ⟨h1, _⟩ | ⟨j, hj, _, h2, _⟩
      · rw [hget]
        simp only [pixelValue, h1, defaultComponent]
        split_ifs <;> first | rfl | omega
      · exact absurd h2 (hnone j hj)
    · intro j hj hfc huniq
      rcases hspec c hc with ⟨_, h2⟩ | ⟨j0, hj0, h1, h2, _⟩
      · exact absurd hfc (h2 j hj)
      · have hjj : j0 = j := huniq j0 hj0 h2
        subst hjj
        have hj2 : j0 < img.images.length := by omega
        refine ⟨img.images[j0], List.getElem?_eq_getElem hj2, ?_⟩
        rw [hget]
        simp [pixelValue, h1, List.getElem?_eq_getElem hj2]

theorem ddsUploads_onlyUploads (texid : ResourceId) (mips : Nat) (rd : dds_data) (left : Nat) :
    ∀ (i : Nat) (ups : List Event), ddsUploads texid mips rd left i = some ups →
      ∀ e ∈ ups, isUploadTo texid e = true := by
  induction left with
  | zero =>
    intro i ups h e he
    simp only [ddsUploads, Option.some.injEq] at h
    subst h
    simp at he
  | succ k ih =>
    intro i ups h e he
    unfold ddsUploads at h
    split at h
    · rename_i d sz rest _ _ hrest
      simp only [Option.some.injEq] at h
      subst h
      rcases List.mem_cons.mp he with h1 | h1
      · subst h1
        simp [isUploadTo]
      · exact ih (i + 1) rest hrest e h1
    · simp at h

theorem isUploadTo_not_create (texid : ResourceId) (t : TextureDescription) :
    isUploadTo texid (Event.createProxyTexture t) = false := rfl

theorem createAndUpload_created (self : ImageViewer) (createRet : ResourceId)
    (texDetails t : TextureDescription) (uploads : ResourceId → Option (List Event))
    (before : List Event) (r : ImageViewer × List Event)
    (hb : ∀ e ∈ before, isProxyCall e = false)
    (hu : ∀ (texid : ResourceId) (ups : List Event), uploads texid = some ups →
      ∀ e ∈ ups, isUploadTo texid e = true)
    (h : createAndUpload self createRet texDetails uploads before = some r)
    (ht : Event.createProxyTexture t ∈ r.2) : t = texDetails := by
  unfold createAndUpload at h
  simp only at h
  split at h
  · simp at h
  · rename_i ups hups
    simp only [Option.some.injEq] at h
    subst h
    simp only [List.mem_append, List.mem_singleton] at ht
    rcases ht with ((h1 | h1) | h1) | h1
    · have := hb _ h1
      simp [isProxyCall] at this
    · have key : ∀ (c : Prop) [Decidable c],
          Event.createProxyTexture t ∈ (if c then [Event.createProxyTexture texDetails] else []) →
            t = texDetails := by
        intro c _ hm
        by_cases hc : c
        · simpa [hc] using hm
        · simp [hc] at hm
      exact key _ h1
    · have := hu _ ups hups _ h1
      simp [isUploadTo] at this
    · cases h1

theorem refreshOpened_created (self : ImageViewer) (env : ReloadEnv)
    (r : ImageViewer × List Event) (t : TextureDescription)
    (h : refreshOpened self env = some r) (ht : Event.createProxyTexture t ∈ r.2) :
    decodedDescriptor self.m_TextureID env.file = some t := by
  unfold refreshOpened at h
  unfold decodedDescriptor
  cases hdc : decodeFile self.m_TextureID env.file with
  | none =>
    rw [hdc] at h
    simp at h
  | some dc =>
    have hev := decodeFile_events_noProxy _ _ _ hdc
    rw [hdc] at h
    cases dc with
    | abort events =>
      simp only [Option.some.injEq] at h
      subst h
      have := hev _ ht
      simp [isProxyCall] at this
    | loaded texDetails dds data datasize events =>
      cases dds with
      | false =>
        simp only [Bool.false_eq_true, if_false] at h
        have := createAndUpload_created _ _ _ t _ _ r hev
          (fun texid ups hu e he => by
            simp only [Option.some.injEq] at hu
            subst hu
            simp only [List.mem_singleton] at he
            subst he
            simp [isUploadTo]) h ht
        rw [this]
      | true =>
        simp only [if_true] at h
        cases hf : env.file with
        | exr a b c e f g =>
          rw [hf] at h
          simp only [Option.some.injEq] at h
          subst h
          rcases List.mem_append.mp ht with h1 | h1
          · have := hev _ h1
            simp [isProxyCall] at this
          · simp at h1
        | hdr load =>
          rw [hf] at h
          simp only [Option.some.injEq] at h
          subst h
          rcases List.mem_append.mp ht with h1 | h1
          · have := hev _ h1
            simp [isProxyCall] at this
          · simp at h1
        | other info load =>
          rw [hf] at h
          simp only [Option.some.injEq] at h
          subst h
          rcases List.mem_append.mp ht with h1 | h1
          · have := hev _ h1
            simp [isProxyCall] at this
          · simp at h1
        | dds load =>
          rw [hf] at h
          cases load with
          | none =>
            simp only [Option.some.injEq] at h
            subst h
            rcases List.mem_append.mp ht with h1 | h1
            · have := hev _ h1
              simp [isProxyCall] at this
            · simp at h1
          | some rd =>
            simp only at h
            split at h
            · simp at h
            · have hb : ∀ e ∈ events ++ [Event.loadDDS], isProxyCall e = false := by
                intro e he
                rcases List.mem_append.mp he with h1 | h1
                · exact hev e h1
                · simp only [List.mem_singleton] at h1
                  subst h1
                  rfl
              have := createAndUpload_created _ _ _ t _ _ r hb
                (fun texid ups hu => ddsUploads_onlyUploads texid _ rd _ 0 ups hu) h ht
              rw [this]

theorem RefreshFile_created (self : ImageViewer) (env : ReloadEnv)
    (r : ImageViewer × List Event) (t : TextureDescription)
    (h : RefreshFile self env = some r) (ht : Event.createProxyTexture t ∈ r.2) :
    decodedDescriptor self.m_TextureID env.file = some t := by
  unfold RefreshFile at h
  simp only at h
  split at h
  · cases hr : refreshOpened self env with
    | none =>
      rw [hr] at h
      simp at h
    | some q =>
      rw [hr] at h
      simp only [Option.some.injEq] at h
      subst h
      rcases List.mem_append.mp ht with h1 | h1
      · have := openLoop_noProxy env.opens 10 0 _ h1
        simp [isProxyCall] at this
      · exact refreshOpened_created self env q t hr h1
  · simp only [Option.some.injEq] at h
    subst h
    have := openLoop_noProxy env.opens 10 0 _ ht
    simp [isProxyCall] at this

theorem ddsTexDetails_dimension (t : TextureDescription) (rd : dds_data) :
    (ddsTexDetails t rd).dimension = dimensionRule (ddsTexDetails t rd) := by
  unfold ddsTexDetails dimensionRule
  simp only
  split_ifs <;> simp_all

theorem decodedDescriptor_dimension (m_TextureID : ResourceId) (file : ImageFile)
    (t : TextureDescription) (h : decodedDescriptor m_TextureID file = some t) :
    (file.isDds = true → t.dimension = dimensionRule t) ∧
      (file.isDds = false → t.dimension = 2) := by
  unfold decodedDescriptor at h
  cases file with
  | exr versionRet version headerRet header loadRet image =>
    refine ⟨fun hd => by simp [ImageFile.isDds] at hd, fun _ => ?_⟩
    simp only [decodeFile] at h
    split_ifs at h
    · cases hx : exrToRGBA header image with
      | none =>
        rw [hx] at h
        simp at h
      | some data =>
        rw [hx] at h
        simp only [Option.some.injEq] at h
        subst h
        rfl
  | hdr load =>
    refine ⟨fun hd => by simp [ImageFile.isDds] at hd, fun _ => ?_⟩
    cases load with
    | none => simp [decodeFile] at h
    | some img =>
      simp only [decodeFile, Option.some.injEq] at h
      subst h
      rfl
  | dds load =>
    refine ⟨fun _ => ?_, fun hd => by simp [ImageFile.isDds] at hd⟩
    cases load with
    | none => simp [decodeFile] at h
    | some rd =>
      simp only [decodeFile, Option.some.injEq] at h
      subst h
      exact ddsTexDetails_dimension _ rd
  | other info load =>
    refine ⟨fun hd => by simp [ImageFile.isDds] at hd, fun _ => ?_⟩
    simp only [decodeFile] at h
    split_ifs at h
    · cases load with
      | none => simp at h
      | some img =>
        simp only [Option.some.injEq] at h
        subst h
        rfl

/-- C11 as stated fails: `RefreshFile` on a 1 by 2 bitmap (depth 1, no cubemap, width 1)
hands the proxy a descriptor of dimension 2, where the rule of the specification gives
1. -/
theorem RefreshFile_bitmap_width_one_is_2D :
    ∃ (r : ImageViewer × List Event) (t : TextureDescription),
      RefreshFile sampleViewer tallBitmapEnv = some r ∧
      Event.createProxyTexture t ∈ r.2 ∧
      t.depth = 1 ∧ t.cubemap = false ∧ t.width = 1 ∧
      t.dimension = 2 ∧ dimensionRule t = 1 :=
  ⟨_, bitmapTexDetails 7 1 2, rfl, by decide, rfl, rfl, rfl, rfl, rfl⟩

/-- C11 as amended: every descriptor that a reload hands to the proxy's
`CreateProxyTexture` has, for a DDS file, dimension 3 if depth > 1, else 2 if it is a
cubemap, else 2 if width > 1, else 1; for the EXR, HDR and generic bitmap families it has
dimension 2 (the "reasonable defaults"), whatever its width. -/
theorem RefreshFile_descriptor_dimension (self : ImageViewer) (env : ReloadEnv)
    (r : ImageViewer × List Event) (t : TextureDescription)
    (h : RefreshFile self env = some r) (ht : Event.createProxyTexture t ∈ r.2) :
    (env.file.isDds = true → t.dimension = dimensionRule t) ∧
      (env.file.isDds = false → t.dimension = 2) :=
  decodedDescriptor_dimension self.m_TextureID env.file t (RefreshFile_created self env r t h ht)

theorem RefreshFile_descriptor_dimension_witness :
    (sampleDdsEnv.file.isDds = true →
      (ddsTexDetails (initialTexDetails 7) sampleDds).dimension =
        dimensionRule (ddsTexDetails (initialTexDetails 7) sampleDds)) ∧
    (sampleDdsEnv.file.isDds = false →
      (ddsTexDetails (initialTexDetails 7) sampleDds).dimension = 2) :=
  RefreshFile_descriptor_dimension sampleViewer sampleDdsEnv _
    (ddsTexDetails (initialTexDetails 7) sampleDds) rfl (by decide)

theorem createAndUpload_fields (self : ImageViewer) (createRet : ResourceId)
    (texDetails : TextureDescription) (uploads : ResourceId → Option (List Event))
    (before : List Event) (r : ImageViewer × List Event)
    (h : createAndUpload self createRet texDetails uploads before = some r) :
    r.1 = { self with m_FrameRecord := r.1.m_FrameRecord, m_TextureID := r.1.m_TextureID } := by
  unfold createAndUpload at h
  simp only at h
  split at h
  · simp at h
  · simp only [Option.some.injEq] at h
    subst h
    rfl

theorem refreshOpened_fields (self : ImageViewer) (env : ReloadEnv)
    (r : ImageViewer × List Event) (h : refreshOpened self env = some r) :
    r.1 = { self with m_FrameRecord := r.1.m_FrameRecord, m_TextureID := r.1.m_TextureID } := by
  unfold refreshOpened at h
  split at h
  · simp at h
  · simp only [Option.some.injEq] at h
    subst h
    rfl
  · simp only at h
    split at h
    · split at h
      · split at h
        · simp at h
        · exact (createAndUpload_fields _ _ _ _ _ _ h).trans rfl
      · simp only [Option.some.injEq] at h
        subst h
        rfl
    · exact (createAndUpload_fields _ _ _ _ _ _ h).trans rfl

/-- The only members `RefreshFile` writes are `m_FrameRecord` and `m_TextureID`. -/
theorem RefreshFile_fields (self : ImageViewer) (env : ReloadEnv)
    (r : ImageViewer × List Event) (h : RefreshFile self env = some r) :
    r.1 = { self with m_FrameRecord := r.1.m_FrameRecord, m_TextureID := r.1.m_TextureID } := by
  unfold RefreshFile at h
  simp only at h
  split at h
  · cases hr : refreshOpened self env with
    | none =>
      rw [hr] at h
      simp at h
    | some q =>
      rw [hr] at h
      simp only [Option.some.injEq] at h
      subst h
      exact refreshOpened_fields self env q hr
  · simp only [Option.some.injEq] at h
    subst h
    rfl

theorem fileChangedAll_keeps (envs : List ReloadEnv) :
    ∀ (self v : ImageViewer), fileChangedAll self envs = some v →
      v.m_Resources = self.m_Resources ∧ v.m_Filename = self.m_Filename ∧
        v.m_PipelineState = self.m_PipelineState := by
  induction envs with
  | nil =>
    intro self v h
    simp only [fileChangedAll, Option.some.injEq] at h
    subst h
    exact ⟨rfl, rfl, rfl⟩
  | cons env rest ih =>
    intro self v h
    unfold fileChangedAll at h
    cases hr : FileChanged self env with
    | none =>
      rw [hr] at h
      simp at h
    | some q =>
      rw [hr] at h
      obtain ⟨h1, h2, h3⟩ := ih q.1 v h
      have hq := RefreshFile_fields self env q hr
      rw [h1, h2, h3, hq]
      exact ⟨rfl, rfl, rfl⟩

theorem newImageViewer_resources (ext : Externals) (proxy : Proxy) (filename : String)
    (env : ReloadEnv) (v : ImageViewer) (t : List Event)
    (h : newImageViewer ext proxy filename env = some (v, t)) :
    v.m_Resources =
        [{ resourceId := v.m_TextureID, autogeneratedName := false,
           name := ext.get_basename filename }] ∧
      v.m_PipelineState = { renderTargets := [v.m_TextureID] } ∧ v.m_Filename = filename := by
  unfold newImageViewer at h
  simp only at h
  split at h
  · simp at h
  · rename_i self1 events hr
    have hf := RefreshFile_fields _ env (self1, events) hr
    simp only [Option.some.injEq, Prod.mk.injEq] at h
    obtain ⟨hv, _⟩ := h
    subst hv
    simp only at hf
    rw [hf]
    exact ⟨rfl, rfl, rfl⟩

/-- C12 as stated fails: after construction on a 1 by 1 bitmap (handle 7) and one
`FileChanged` on a 1 by 2 bitmap, which replaces the handle by 9, `GetTextures` returns 9
and the entry of `GetResources` still has `resourceId` 7. -/
theorem GetResources_stale_after_reload :
    ∃ (v0 v1 : ImageViewer) (t0 : List Event),
      newImageViewer sampleExternals sampleProxy "image.png" firstLoadEnv = some (v0, t0) ∧
      fileChangedAll v0 [tallBitmapEnv] = some v1 ∧
      GetTextures v1 = [9] ∧
      GetResources v1 =
        [{ resourceId := 7, autogeneratedName := false, name := "image.png" }] :=
  ⟨_, _, _, rfl, rfl, rfl, rfl⟩

/-- C12 as amended: after construction the single entry of `GetResources` has the handle
returned by `GetTextures` as `resourceId` and the base name of the file as name.
`FileChanged` never writes the resource list: after any sequence of reloads the entry is
the one made at construction, so its name is still the base name and its `resourceId` is
the handle obtained at construction, whether or not a reload has replaced the handle. -/
theorem GetResources_after_reloads (ext : Externals) (proxy : Proxy) (filename : String)
    (env0 : ReloadEnv) (envs : List ReloadEnv) (v0 v : ImageViewer) (t0 : List Event)
    (h0 : newImageViewer ext proxy filename env0 = some (v0, t0))
    (h : fileChangedAll v0 envs = some v) :
    GetTextures v0 = [v0.m_TextureID] ∧
    GetResources v0 =
      [{ resourceId := v0.m_TextureID, autogeneratedName := false,
         name := ext.get_basename filename }] ∧
    GetTextures v = [v.m_TextureID] ∧
    GetResources v =
      [{ resourceId := v0.m_TextureID, autogeneratedName := false,
         name := ext.get_basename filename }] := by
  obtain ⟨hres, _, _⟩ := newImageViewer_resources ext proxy filename env0 v0 t0 h0
  obtain ⟨hkeep, _, _⟩ := fileChangedAll_keeps envs v0 v h
  refine ⟨rfl, hres, rfl, ?_⟩
  unfold GetResources
  rw [hkeep, hres]

theorem GetResources_after_reloads_witness :
    ∃ (v0 v : ImageViewer),
      GetTextures v0 = [v0.m_TextureID] ∧
      GetResources v0 =
        [{ resourceId := v0.m_TextureID, autogeneratedName := false,
           name := sampleExternals.get_basename "image.png" }] ∧
      GetTextures v = [v.m_TextureID] ∧
      GetResources v =
        [{ resourceId := v0.m_TextureID, autogeneratedName := false,
           name := sampleExternals.get_basename "image.png" }] :=
  ⟨_, _, GetResources_after_reloads sampleExternals sampleProxy "image.png" firstLoadEnv
    [tallBitmapEnv, lockedTwiceEnv] _ _ _ rfl rfl⟩

/-- C13 (violated by the code): whatever the default-constructed `TextureDescription` is,
there is a width `w` such that, after construction on a `w` by 1 bitmap (handle 7), a
reload that decodes a `w` by 2 bitmap while the proxy returns `ResourceId()` from
`CreateProxyTexture` leaves the adapter with the null handle instead of 7, and still
issues `SetProxyTextureData` on the null handle. -/
theorem RefreshFile_declined_create_loses_handle (ext : Externals) (proxy : Proxy)
    (filename : String) (px0 px1 : List Nat) :
    ∃ (w : Nat) (s0 s1 : ImageViewer) (t0 t1 : List Event),
      newImageViewer ext proxy filename (openEnv (bitmapFile w (1 : Nat) px0) 7) = some (s0, t0) ∧
      s0.m_TextureID = 7 ∧
      RefreshFile s0 (openEnv (bitmapFile w (2 : Nat) px1) nullId) = some (s1, t1) ∧
      s1.m_TextureID = nullId ∧
      t1 = [Event.fopen true, Event.stbiInfo, Event.stbiLoad,
            Event.createProxyTexture (bitmapTexDetails 7 w 2),
            Event.setProxyTextureData nullId 0 0 px1 (computeDatasize w 2 1), Event.fclose] := by
  obtain ⟨w, hw, hw2, hne⟩ : ∃ w : Nat, 0 < w ∧ w < 4294967295 ∧ ext.texDetails.width ≠ w := by
    by_cases h : ext.texDetails.width = 1
    · exact ⟨2, by omega, by omega, by omega⟩
    · exact ⟨1, by omega, by omega, h⟩
  have d7 : shapeDiffers ext.texDetails (bitmapTexDetails 7 w 2) = true :=
    shapeDiffers_of_width _ _ hne
  exact ⟨w, _, _, _, _,
    by
      simp only [newImageViewer]
      rw [RefreshFile_bitmap _ w 1 px0 7 hw hw2 (by omega) (by omega)],
    by simp [nullId],
    by rw [RefreshFile_bitmap _ w 2 px1 nullId hw hw2 (by omega) (by omega)],
    by simp [nullId, d7],
    by simp [nullId, d7]⟩

theorem ddsUploads_eq_map (texid : ResourceId) (rd : dds_data) (left : Nat) :
    ∀ i : Nat, i + left ≤ rd.subdata.length → i + left ≤ rd.subsizes.length →
      ddsUploads texid rd.mips rd left i =
        some ((List.range left).map (fun j => ddsUploadEvent texid rd (i + j))) := by
  induction left with
  | zero =>
    intro i _ _
    rfl
  | succ k ih =>
    intro i h1 h2
    have hi1 : i < rd.subdata.length := by omega
    have hi2 : i < rd.subsizes.length := by omega
    have hrec := ih (i + 1) (by omega) (by omega)
    have hfun : (fun j => ddsUploadEvent texid rd (i + 1 + j)) =
        (fun j => ddsUploadEvent texid rd (i + j)) ∘ Nat.succ := by
      funext j
      simp only [Function.comp]
      rw [show i + 1 + j = i + Nat.succ j by omega]
    rw [hfun] at hrec
    rw [List.range_succ_eq_map, List.map_cons, List.map_map]
    simp only [ddsUploads, hrec, List.getElem?_eq_getElem hi1, List.getElem?_eq_getElem hi2]
    simp only [ddsUploadEvent, Nat.add_zero, List.getD_eq_getElem _ _ hi1,
      List.getD_eq_getElem _ _ hi2]

theorem sum_take_le_sum (l : List Nat) (n : Nat) : (l.take n).sum ≤ l.sum := by
  have h : (l.take n ++ l.drop n).sum = l.sum := by rw [List.take_append_drop]
  rw [List.sum_append] at h
  omega

theorem sumSubsizes_eq_sum_take (subsizes : List Nat) (hs : subsizes.sum < U64)
    (n : Nat) (hn : n ≤ subsizes.length) :
    sumSubsizes subsizes n = some ((subsizes.take n).sum) := by
  induction n with
  | zero => rfl
  | succ k ih =>
    have h1 := ih (by omega)
    have hk : k < subsizes.length := by omega
    have hsum : (subsizes.take (k + 1)).sum = (subsizes.take k).sum + subsizes[k] :=
      List.sum_take_succ subsizes k hk
    have hle := sum_take_le_sum subsizes (k + 1)
    simp only [sumSubsizes, h1, List.getElem?_eq_getElem hk, hsum]
    rw [Nat.mod_eq_of_lt (by omega)]

theorem isUpload_of_isProxyCall_false (e : Event) (h : isProxyCall e = false) :
    isUpload e = false := by
  cases e <;> simp_all [isProxyCall, isUpload]

theorem isUpload_of_isUploadTo (texid : ResourceId) (e : Event) (h : isUploadTo texid e = true) :
    isUpload e = true := by
  cases e <;> simp_all [isUploadTo, isUpload]

/-- The upload calls of the last part of `RefreshFile` are those of the upload step, made
for the handle the adapter ends with; the frame record is not touched there. -/
theorem createAndUpload_uploads (self : ImageViewer) (createRet : ResourceId)
    (texDetails : TextureDescription) (uploads : ResourceId → Option (List Event))
    (before : List Event) (hb : ∀ e ∈ before, isProxyCall e = false)
    (hu : ∀ texid : ResourceId, ∃ ups, uploads texid = some ups ∧
      ∀ e ∈ ups, isUploadTo texid e = true) :
    ∃ (r : ImageViewer × List Event) (ups : List Event),
      createAndUpload self createRet texDetails uploads before = some r ∧
      uploads r.1.m_TextureID = some ups ∧
      r.2.filter isUpload = ups ∧
      r.1.m_FrameRecord = self.m_FrameRecord := by
  unfold createAndUpload
  simp only
  generalize hid : (if (if self.m_TextureID ≠ nullId ∧
      shapeDiffers self.m_TexDetails texDetails = true then nullId else self.m_TextureID) = nullId
    then createRet
    else (if self.m_TextureID ≠ nullId ∧
      shapeDiffers self.m_TexDetails texDetails = true then nullId else self.m_TextureID)) = id2
  generalize hcr : (if (if self.m_TextureID ≠ nullId ∧
      shapeDiffers self.m_TexDetails texDetails = true then nullId else self.m_TextureID) = nullId
    then [Event.createProxyTexture texDetails] else []) = created
  obtain ⟨ups, hups, hall⟩ := hu id2
  rw [hups]
  refine ⟨_, ups, rfl, hups, ?_, rfl⟩
  have h1 : before.filter isUpload = [] :=
    List.filter_eq_nil_iff.mpr (fun e he => by
      rw [isUpload_of_isProxyCall_false e (hb e he)]
      simp)
  have key : ∀ (c : Prop) [Decidable c],
      (if c then [Event.createProxyTexture texDetails] else []).filter isUpload = [] := by
    intro c _
    by_cases hc : c
    · rw [if_pos hc]
      rfl
    · rw [if_neg hc]
      rfl
  have h2 : created.filter isUpload = [] := by
    rw [← hcr]
    exact key _
  have h3 : ups.filter isUpload = ups :=
    List.filter_eq_self.mpr (fun e he => isUpload_of_isUploadTo id2 e (hall e he))
  have h4 : [Event.fclose].filter isUpload = [] := rfl
  simp only [List.filter_append, h1, h2, h3, h4, List.nil_append, List.append_nil]

theorem countP_range_eq (q : Nat → Bool) (k : Nat) (hq : ∀ j, q j = true ↔ j = k) (n : Nat) :
    (List.range n).countP q = if k < n then 1 else 0 := by
  induction n with
  | zero => simp
  | succ m ih =>
    rw [List.range_succ, List.countP_append, ih]
    by_cases hk : k = m
    · have hqm : q m = true := (hq m).mpr hk.symm
      subst hk
      simp [List.countP_cons, hqm]
    · have hqm : q m = false := by
        cases hv : q m with
        | false => rfl
        | true => exact absurd ((hq m).mp hv).symm hk
      simp only [List.countP_cons, List.countP_nil, hqm]
      by_cases hlt : k < m
      · simp [hlt, Nat.lt_succ_of_lt hlt]
      · have : ¬ k < m + 1 := by omega
        simp [hlt, this]

theorem openLoop_filter_isUpload (opens : Nat → Bool) :
    (openLoop opens 10 0).2.filter isUpload = [] :=
  List.filter_eq_nil_iff.mpr (fun e he => by
    rw [isUpload_of_isProxyCall_false e (openLoop_noProxy opens 10 0 e he)]
    simp)

theorem slice_mip_iff (m s p j : Nat) (hp : p < m) :
    (j / m = s ∧ j % m = p) ↔ j = s * m + p := by
  constructor
  · rintro ⟨h1, h2⟩
    have h := Nat.div_add_mod j m
    rw [h1, h2, Nat.mul_comm] at h
    exact h.symm
  · intro h
    subst h
    have hm : 0 < m := by omega
    refine ⟨?_, ?_⟩
    · rw [Nat.add_comm, Nat.add_mul_div_right _ _ hm, Nat.div_eq_of_lt hp, Nat.zero_add]
    · rw [Nat.add_comm, Nat.add_mul_mod_self_right, Nat.mod_eq_of_lt hp]

theorem countP_ddsUploads (texid : ResourceId) (rd : dds_data) (slice mip : Nat)
    (hs : slice < rd.slices) (hm : mip < rd.mips) :
    ((List.range (rd.slices * rd.mips)).map (ddsUploadEvent texid rd)).countP
      (isUploadAt slice mip) = 1 := by
  rw [List.countP_map]
  rw [countP_range_eq _ (slice * rd.mips + mip)]
  · have h1 : slice * rd.mips + mip < (slice + 1) * rd.mips := by
      rw [Nat.add_mul, Nat.one_mul]
      omega
    have h2 : (slice + 1) * rd.mips ≤ rd.slices * rd.mips := Nat.mul_le_mul_right _ hs
    rw [if_pos (by omega)]
  · intro j
    simp only [Function.comp, ddsUploadEvent, isUploadAt, Bool.and_eq_true, beq_iff_eq]
    exact slice_mip_iff rd.mips slice mip j hm

theorem countP_isUploadAt_filter (slice mip : Nat) (l : List Event) :
    l.countP (isUploadAt slice mip) = (l.filter isUpload).countP (isUploadAt slice mip) := by
  rw [List.countP_filter]
  apply List.countP_congr
  intro e _
  cases e <;> simp [isUploadAt, isUpload]

theorem refreshOpened_dds (self : ImageViewer) (env : ReloadEnv) (rd : dds_data)
    (hfile : env.file = ImageFile.dds (some rd))
    (hprod : rd.slices * rd.mips < U32)
    (hd : rd.subdata.length = rd.slices * rd.mips)
    (hs : rd.subsizes.length = rd.slices * rd.mips)
    (hsum : rd.subsizes.sum < U64) :
    ∃ r : ImageViewer × List Event, refreshOpened self env = some r ∧
      r.2.filter isUpload =
        (List.range (rd.slices * rd.mips)).map (ddsUploadEvent r.1.m_TextureID rd) ∧
      r.1.m_FrameRecord.frameInfo.uncompressedFileSize = rd.subsizes.sum := by
  have hdc : decodeFile self.m_TextureID env.file =
      some (Decode.loaded (initialTexDetails self.m_TextureID) true [] 0 []) := by
    rw [hfile]
    rfl
  have hn : rd.slices * rd.mips % U32 = rd.slices * rd.mips := Nat.mod_eq_of_lt hprod
  have htotal : sumSubsizes rd.subsizes (rd.slices * rd.mips) = some rd.subsizes.sum := by
    rw [sumSubsizes_eq_sum_take rd.subsizes hsum _ (by omega), ← hs, List.take_length]
  have hu : ∀ texid : ResourceId, ∃ ups,
      (fun t => ddsUploads t rd.mips rd (rd.slices * rd.mips) 0) texid = some ups ∧
        ∀ e ∈ ups, isUploadTo texid e = true := by
    intro texid
    have h := ddsUploads_eq_map texid rd (rd.slices * rd.mips) 0 (by omega) (by omega)
    exact ⟨_, h, ddsUploads_onlyUploads texid rd.mips rd _ 0 _ h⟩
  have hb : ∀ e ∈ ([] : List Event) ++ [Event.loadDDS], isProxyCall e = false := by
    intro e he
    simp only [List.nil_append, List.mem_singleton] at he
    subst he
    rfl
  obtain ⟨r, ups, hr, hups, hfilter, hframe⟩ :=
    createAndUpload_uploads
      (copyCompressed (setUncompressed (setDataSizes self 0) rd.subsizes.sum)) env.createRet
      (ddsTexDetails (initialTexDetails self.m_TextureID) rd)
      (fun t => ddsUploads t rd.mips rd (rd.slices * rd.mips) 0)
      (([] : List Event) ++ [Event.loadDDS]) hb hu
  refine ⟨r, ?_, ?_, ?_⟩
  · simp only [refreshOpened, hdc, if_true]
    rw [hfile]
    simp only [ddsTexDetails_arraysize, ddsTexDetails_mips, hn, htotal]
    exact hr
  · rw [hfilter]
    have h := ddsUploads_eq_map r.1.m_TextureID rd (rd.slices * rd.mips) 0 (by omega)
      (by omega)
    simp only [Nat.zero_add] at h
    rw [h] at hups
    simp only [Option.some.injEq] at hups
    rw [← hups]
  · rw [hframe]
    rfl

theorem refreshOpened_single_upload (self : ImageViewer) (env : ReloadEnv)
    (tex : TextureDescription) (data : List Nat) (datasize : Nat) (events : List Event)
    (hdc : decodeFile self.m_TextureID env.file =
      some (Decode.loaded tex false data datasize events)) :
    ∃ r : ImageViewer × List Event, refreshOpened self env = some r ∧
      r.2.filter isUpload = [Event.setProxyTextureData r.1.m_TextureID 0 0 data datasize] := by
  have hev := decodeFile_events_noProxy _ _ _ hdc
  obtain ⟨r, ups, hr, hups, hfilter, _⟩ :=
    createAndUpload_uploads (copyCompressed (setDataSizes self datasize)) env.createRet tex
      (fun t => some [Event.setProxyTextureData t 0 0 data datasize]) events hev
      (fun texid => ⟨_, rfl, fun e he => by
        simp only [List.mem_singleton] at he
        subst he
        simp [isUploadTo]⟩)
  refine ⟨r, ?_, ?_⟩
  · simp only [refreshOpened, hdc, Bool.false_eq_true, if_false]
    exact hr
  · simp only [Option.some.injEq] at hups
    rw [hfilter, ← hups]

theorem constructedViewer_eq :
    ∃ t0, newImageViewer sampleExternals sampleProxy "image.png" firstLoadEnv =
      some (constructedViewer, t0) :=
  ⟨_, rfl⟩

theorem decodeFile_other (m_TextureID : ResourceId) (info : StbiInfo) (img : StbiImage)
    (hret : info.ret ≠ 0) (hx0 : toU32 info.x ≠ 0) (hx1 : toU32 info.x ≠ allOnes)
    (hy0 : toU32 info.y ≠ 0) (hy1 : toU32 info.y ≠ allOnes) :
    decodeFile m_TextureID (ImageFile.other info (some img)) =
      some (Decode.loaded
        { initialTexDetails m_TextureID with
          format := rgba8_unorm, width := toU32 img.x, height := toU32 img.y }
        false img.data (computeDatasize (toU32 img.x) (toU32 img.y) 1)
        [Event.stbiInfo, Event.stbiLoad]) := by
  simp only [decodeFile]
  rw [if_neg]
  simp only [Bool.or_eq_true, decide_eq_true_eq]
  tauto

theorem decodeFile_hdr (m_TextureID : ResourceId) (img : StbiImage) :
    decodeFile m_TextureID (ImageFile.hdr (some img)) =
      some (Decode.loaded
        { initialTexDetails m_TextureID with
          format := rgba32_float, width := toU32 img.x, height := toU32 img.y }
        false img.data (computeDatasize (toU32 img.x) (toU32 img.y) 4) [Event.stbiLoadf]) :=
  rfl

theorem decodeFile_exr (m_TextureID : ResourceId) (version : EXRVersion) (header : EXRHeader)
    (image : EXRImage) (data : List Nat)
    (h1 : version.multipart = false) (h2 : version.non_image = false)
    (h3 : version.tiled = false) (hdata : exrToRGBA header image = some data) :
    decodeFile m_TextureID (ImageFile.exr 0 version 0 header 0 image) =
      some (Decode.loaded
        { initialTexDetails m_TextureID with
          format := rgba32_float, width := toU32 image.width, height := toU32 image.height }
        false data (computeDatasize (toU32 image.width) (toU32 image.height) 4)
        [Event.parseEXRVersion, Event.parseEXRHeader, Event.loadEXRImage]) := by
  simp [decodeFile, h1, h2, h3, hdata]

/-- C14: when the file opens and is a DDS file decoded with array size `a` and mip count
`m` (`a * m < 2^32`, one sub-buffer and one size for each index, sizes summing to less
than `2^64`), the `SetProxyTextureData` calls of the reload are, in order, exactly the
`a * m` calls carrying sub-buffer `i` with its own size to slice `i / m`, mip `i % m`, on
the handle the adapter ends with; every pair `slice < a`, `mip < m` gets exactly one of
them; and the frame record's uncompressed size is the sum of the sub-buffer sizes.  For
the other families there is exactly one such call, to slice 0, mip 0, with the whole
buffer and `datasize`: for a generic bitmap whose probe passes the reload's test and whose
load returns data, for an HDR file whose load returns data, and for an EXR file (single
part, scanline, image) whose version, header and image load succeed and whose conversion
fits 32-bit sizes. -/
theorem RefreshFile_uploads (self : ImageViewer) (env : ReloadEnv)
    (hopen : (openLoop env.opens 10 0).1 = true) :
    (∀ rd : dds_data, env.file = ImageFile.dds (some rd) →
      rd.slices * rd.mips < U32 →
      rd.subdata.length = rd.slices * rd.mips →
      rd.subsizes.length = rd.slices * rd.mips →
      rd.subsizes.sum < U64 →
      ∃ r : ImageViewer × List Event, RefreshFile self env = some r ∧
        r.2.filter isUpload =
          (List.range (rd.slices * rd.mips)).map (ddsUploadEvent r.1.m_TextureID rd) ∧
        (∀ slice mip, slice < rd.slices → mip < rd.mips →
          r.2.countP (isUploadAt slice mip) = 1) ∧
        r.1.m_FrameRecord.frameInfo.uncompressedFileSize = rd.subsizes.sum) ∧
    (∀ (info : StbiInfo) (img : StbiImage), env.file = ImageFile.other info (some img) →
      info.ret ≠ 0 → toU32 info.x ≠ 0 → toU32 info.x ≠ allOnes →
      toU32 info.y ≠ 0 → toU32 info.y ≠ allOnes →
      ∃ r : ImageViewer × List Event, RefreshFile self env = some r ∧
        r.2.filter isUpload =
          [Event.setProxyTextureData r.1.m_TextureID 0 0 img.data
            (computeDatasize (toU32 img.x) (toU32 img.y) 1)]) ∧
    (∀ img : StbiImage, env.file = ImageFile.hdr (some img) →
      ∃ r : ImageViewer × List Event, RefreshFile self env = some r ∧
        r.2.filter isUpload =
          [Event.setProxyTextureData r.1.m_TextureID 0 0 img.data
            (computeDatasize (toU32 img.x) (toU32 img.y) 4)]) ∧
    (∀ (version : EXRVersion) (header : EXRHeader) (image : EXRImage) (w h : Nat),
      env.file = ImageFile.exr 0 version 0 header 0 image →
      version.multipart = false → version.non_image = false → version.tiled = false →
      image.width = (w : Int) → image.height = (h : Int) → w < U32 → h < U32 →
      w * h * 4 < U32 →
      image.num_channels = (header.channels.length : Int) →
      image.images.length = header.channels.length →
      (∀ s ∈ image.images, s.length = w * h) →
      ∃ (r : ImageViewer × List Event) (data : List Nat),
        RefreshFile self env = some r ∧
        exrToRGBA header image = some data ∧ data.length = w * h * 4 ∧
        r.2.filter isUpload =
          [Event.setProxyTextureData r.1.m_TextureID 0 0 data (computeDatasize w h 4)]) := by
  have hrf : ∀ q : ImageViewer × List Event, refreshOpened self env = some q →
      RefreshFile self env = some (q.1, (openLoop env.opens 10 0).2 ++ q.2) := by
    intro q hq
    simp [RefreshFile, hopen, hq]
  have hfil : ∀ l : List Event,
      ((openLoop env.opens 10 0).2 ++ l).filter isUpload = l.filter isUpload := by
    intro l
    rw [List.filter_append, openLoop_filter_isUpload, List.nil_append]
  have hsingle : ∀ (tex : TextureDescription) (data : List Nat) (datasize : Nat)
      (events : List Event),
      decodeFile self.m_TextureID env.file =
        some (Decode.loaded tex false data datasize events) →
      ∃ r : ImageViewer × List Event, RefreshFile self env = some r ∧
        r.2.filter isUpload =
          [Event.setProxyTextureData r.1.m_TextureID 0 0 data datasize] := by
    intro tex data datasize events hdc
    obtain ⟨q, hq, hups⟩ := refreshOpened_single_upload self env tex data datasize events hdc
    refine ⟨_, hrf q hq, ?_⟩
    rw [hfil, hups]
  refine ⟨?_, ?_, ?_, ?_⟩
  · intro rd hfile hprod hd hs hsum
    obtain ⟨q, hq, hups, hsize⟩ := refreshOpened_dds self env rd hfile hprod hd hs hsum
    refine ⟨_, hrf q hq, ?_, ?_, hsize⟩
    · rw [hfil, hups]
    · intro slice mip hsl hmp
      rw [countP_isUploadAt_filter, hfil, hups]
      exact countP_ddsUploads _ rd slice mip hsl hmp
  · intro info img hfile hret hx0 hx1 hy0 hy1
    apply hsingle _ _ _ _
    rw [hfile]
    exact decodeFile_other self.m_TextureID info img hret hx0 hx1 hy0 hy1
  · intro img hfile
    apply hsingle _ _ _ _
    rw [hfile]
    exact decodeFile_hdr self.m_TextureID img
  · intro version header image w h hfile h1 h2 h3 hw hh hw2 hh2 hsz hnc hsrc hlen
    obtain ⟨data, hdata, hdlen, _⟩ :=
      exrToRGBA_mapping header image w h hw hh hw2 hh2 hsz hnc hsrc hlen
    have e1 : toU32 image.width = w := by
      rw [hw]
      exact toU32_natCast w hw2
    have e2 : toU32 image.height = h := by
      rw [hh]
      exact toU32_natCast h hh2
    have hdc := decodeFile_exr self.m_TextureID version header image data h1 h2 h3 hdata
    rw [e1, e2, ← hfile] at hdc
    obtain ⟨r, hr, hups⟩ := hsingle _ _ _ _ hdc
    exact ⟨r, data, hr, hdata, hdlen, hups⟩

theorem RefreshFile_uploads_witness :
    (∃ r : ImageViewer × List Event, RefreshFile constructedViewer sampleDdsEnv = some r ∧
      r.2.filter isUpload =
        (List.range (sampleDds.slices * sampleDds.mips)).map
          (ddsUploadEvent r.1.m_TextureID sampleDds) ∧
      (∀ slice mip, slice < sampleDds.slices → mip < sampleDds.mips →
        r.2.countP (isUploadAt slice mip) = 1) ∧
      r.1.m_FrameRecord.frameInfo.uncompressedFileSize = sampleDds.subsizes.sum) ∧
    (∃ r : ImageViewer × List Event, RefreshFile constructedViewer tallBitmapEnv = some r ∧
      r.2.filter isUpload =
        [Event.setProxyTextureData r.1.m_TextureID 0 0 [10, 20, 30, 255, 40, 50, 60, 255]
          (computeDatasize (toU32 1) (toU32 2) 1)]) ∧
    (∃ r : ImageViewer × List Event, RefreshFile constructedViewer sampleHdrEnv = some r ∧
      r.2.filter isUpload =
        [Event.setProxyTextureData r.1.m_TextureID 0 0 [0, 0, 0, 1065353216]
          (computeDatasize (toU32 1) (toU32 1) 4)]) ∧
    (∃ (r : ImageViewer × List Event) (data : List Nat),
      RefreshFile constructedViewer sampleExrEnv = some r ∧
      exrToRGBA hugeGreenHeader smallGreenImage = some data ∧ data.length = 2 * 1 * 4 ∧
      r.2.filter isUpload =
        [Event.setProxyTextureData r.1.m_TextureID 0 0 data (computeDatasize 2 1 4)]) :=
  ⟨(RefreshFile_uploads constructedViewer sampleDdsEnv (by decide)).1 sampleDds rfl (by decide)
      rfl rfl (by decide),
    (RefreshFile_uploads constructedViewer tallBitmapEnv (by decide)).2.1
      { ret := 1, x := 1, y := 2 } { x := 1, y := 2, data := [10, 20, 30, 255, 40, 50, 60, 255] }
      rfl (by decide) (by decide) (by decide) (by decide) (by decide),
    (RefreshFile_uploads constructedViewer sampleHdrEnv (by decide)).2.2.1
      { x := 1, y := 1, data := [0, 0, 0, 1065353216] } rfl,
    (RefreshFile_uploads constructedViewer sampleExrEnv (by decide)).2.2.2
      { tiled := false, non_image := false, multipart := false } hugeGreenHeader
      smallGreenImage 2 1 rfl rfl rfl rfl rfl rfl (by decide) (by decide) (by decide) rfl rfl
      (by decide)⟩

end Renderdoc
